import Mathlib

set_option maxRecDepth 8192

/-!
Verification development for the gym_monitoring repository's data
preprocessing and derived-metrics engine.

Numeric columns of the pandas DataFrames are modelled as rational numbers
(`ℚ`); calendar dates are modelled as absolute day numbers (`ℕ`), which is
all that the analysed code observes about them (ordering, grouping, and day
differences).  Python `None` / `NaN` / non-string cell values are modelled
explicitly where the code branches on them.
-/

/-! ### Generic string helpers

The Python code compares strings case-insensitively (`str.lower`) and by
substring containment (`in`).  `String.toLower` in Lean is iterator-based and
does not reduce in the kernel, so ASCII lowercasing and lexicographic order
are implemented directly on character lists.  All dictionary keys and
patterns in the source are ASCII, so ASCII lowercasing coincides with
Python's `str.lower` on every string the classifier tables contain.
-/

def charLower (c : Char) : Char :=
  if 65 ≤ c.toNat ∧ c.toNat ≤ 90 then Char.ofNat (c.toNat + 32) else c

def lowerStr (s : String) : String := ⟨s.data.map charLower⟩

/-- Lexicographic strict order on character lists via code points. -/
def charsLt : List Char → List Char → Bool
  | [], [] => false
  | [], _ :: _ => true
  | _ :: _, [] => false
  | a :: as, b :: bs =>
    if a.toNat < b.toNat then true
    else if b.toNat < a.toNat then false
    else charsLt as bs

/-- Lexicographic `≤` on strings (the order pandas uses for string group keys). -/
def strLe (a b : String) : Bool := charsLt a.data b.data || a == b

/-- Containment test: does `t` occur as a contiguous run inside `s`?
    This is Python's `t in s` on strings. -/
def subChars (t s : List Char) : Bool := s.tails.any (fun suf => t.isPrefixOf suf)

/-! ### Tiny regex engine

`config/mappings.py` falls back to `re.search` over a fixed table of
patterns.  Every pattern in that table is a concatenation of literal
characters, `\s*`, and `[\s-]*`, so the engine below supports exactly those
three atoms.  Matching uses explicit fuel so that it is structurally
recursive and kernel-reducible; every recursive call consumes a pattern atom
or an input character, so `patterns + characters + 1` fuel is always enough.
-/

inductive PatAtom where
  | lit : Char → PatAtom
  | wsStar : PatAtom
  | wsDashStar : PatAtom
deriving DecidableEq

/-- Python's `\s` class (ASCII range, which covers the classifier's inputs). -/
def isWsChar (c : Char) : Bool :=
  c == ' ' || c == '\t' || c == '\n' || c == '\r' || c == '\x0b' || c == '\x0c'

/-- Compile one of the source's raw regex strings into a list of atoms. -/
def compileAtoms : List Char → List PatAtom
  | '\\' :: 's' :: '*' :: rest => .wsStar :: compileAtoms rest
  | '[' :: '\\' :: 's' :: '-' :: ']' :: '*' :: rest => .wsDashStar :: compileAtoms rest
  | c :: rest => .lit c :: compileAtoms rest
  | [] => []

/-- Match a compiled pattern against a prefix of `s` (backtracking, with fuel). -/
def patMatchF : ℕ → List PatAtom → List Char → Bool
  | 0, _, _ => false
  | _ + 1, [], _ => true
  | _ + 1, .lit _ :: _, [] => false
  | f + 1, .lit c :: ps, d :: ds => c == d && patMatchF f ps ds
  | f + 1, .wsStar :: ps, [] => patMatchF f ps []
  | f + 1, .wsStar :: ps, d :: ds =>
    patMatchF f ps (d :: ds) || (isWsChar d && patMatchF f (.wsStar :: ps) ds)
  | f + 1, .wsDashStar :: ps, [] => patMatchF f ps []
  | f + 1, .wsDashStar :: ps, d :: ds =>
    patMatchF f ps (d :: ds) || ((isWsChar d || d == '-') && patMatchF f (.wsDashStar :: ps) ds)

/-- Python's `re.search(pattern, s)`: match at any position. -/
def reSearch (pat : String) (s : List Char) : Bool :=
  let p := compileAtoms pat.data
  s.tails.any (fun t => patMatchF ((p.length + t.length + 1) * 2) p t)

/-! ### Muscle-group classifier (`config/mappings.py`)

`EXERCISE_MUSCLE_MAP` is the curated name-to-group dictionary, in source
order.  The Python source writes eight keys twice; a Python dict literal
keeps the first position and the last value for a duplicated key, and the
entries below reflect that (each such entry is marked).
-/

def EXERCISE_MUSCLE_MAP : List (String × String) := [
    ("Bench Press", "Chest"),
    ("Incline Bench Press", "Chest"),
    ("Decline Bench Press", "Chest"),
    ("Dumbbell Bench Press", "Chest"),
    ("Incline Dumbbell Press", "Chest"),
    ("Decline Dumbbell Press", "Chest"),
    ("Dumbbell Fly", "Chest"),
    ("Incline Dumbbell Fly", "Chest"),
    ("Decline Dumbbell Fly", "Chest"),
    ("Cable Fly", "Chest"),
    ("High Cable Fly", "Chest"),
    ("Low Cable Fly", "Chest"),
    ("Chest Press Machine", "Chest"),
    ("Pec Deck", "Chest"),
    ("Push Up", "Chest"),
    ("Incline Push Up", "Chest"),
    ("Decline Push Up", "Chest"),
    ("Chest Dip", "Chest"),
    ("Svend Press", "Chest"),
    ("Landmine Press", "Shoulders"),  -- duplicate key in source; Python dict keeps the last value
    ("Floor Press", "Chest"),
    ("Machine Fly", "Chest"),
    ("Smith Machine Bench Press", "Chest"),
    ("Weighted Push Up", "Chest"),
    ("Cable Crossover", "Chest"),
    ("Cable Iron Cross", "Chest"),
    ("Plate Press", "Chest"),
    ("Guillotine Press", "Chest"),
    ("Hex Press", "Chest"),
    ("One Arm Push Up", "Chest"),
    ("Deficit Push Up", "Chest"),
    ("Archer Push Up", "Chest"),
    ("Close-Grip Bench Press", "Chest"),
    ("Wide-Grip Bench Press", "Chest"),
    ("Reverse-Grip Bench Press", "Chest"),
    ("Deadlift", "Back"),
    ("Barbell Row", "Back"),
    ("Dumbbell Row", "Back"),
    ("Pendlay Row", "Back"),
    ("T-Bar Row", "Back"),
    ("Seated Cable Row", "Back"),
    ("Machine Row", "Back"),
    ("Pull Up", "Back"),
    ("Chin Up", "Arms"),  -- duplicate key in source; Python dict keeps the last value
    ("Neutral Grip Pull Up", "Back"),
    ("Lat Pulldown", "Back"),
    ("Close Grip Lat Pulldown", "Back"),
    ("Wide Grip Lat Pulldown", "Back"),
    ("V-Bar Pulldown", "Back"),
    ("Straight Arm Pulldown", "Back"),
    ("Face Pull", "Back"),
    ("Meadows Row", "Back"),
    ("Chest Supported Row", "Back"),
    ("Chest Supported Dumbbell Row", "Back"),
    ("Bent Over Row", "Back"),
    ("Inverted Row", "Back"),
    ("Seal Row", "Back"),
    ("Cable Row", "Back"),
    ("Back Extension", "Back"),
    ("Good Morning", "Back"),
    ("Rack Pull", "Back"),
    ("Block Pull", "Back"),
    ("Deficit Deadlift", "Back"),
    ("Romanian Deadlift", "Back"),
    ("Stiff Leg Deadlift", "Back"),
    ("Snatch Grip Deadlift", "Back"),
    ("Sumo Deadlift", "Back"),
    ("Trap Bar Deadlift", "Back"),
    ("Landmine Row", "Back"),
    ("Band Pull Apart", "Back"),
    ("Reverse Fly", "Back"),
    ("Bent Over Rear Delt Raise", "Back"),
    ("Dumbbell Pullover", "Back"),
    ("Cable Pullover", "Back"),
    ("Renegade Row", "Back"),
    ("Seated Row", "Back"),
    ("Kroc Row", "Back"),
    ("Australian Pull Up", "Back"),
    ("One Arm Row", "Back"),
    ("Assisted Pull Up", "Back"),
    ("Superman", "Back"),
    ("Hyperextension", "Back"),
    ("Reverse Hyperextension", "Legs"),  -- duplicate key in source; Python dict keeps the last value
    ("Shrug", "Back"),
    ("Barbell Shrug", "Back"),
    ("Dumbbell Shrug", "Back"),
    ("Cable Shrug", "Back"),
    ("Machine Shrug", "Back"),
    ("Overhead Press", "Shoulders"),
    ("Military Press", "Shoulders"),
    ("Seated Overhead Press", "Shoulders"),
    ("Standing Overhead Press", "Shoulders"),
    ("Dumbbell Shoulder Press", "Shoulders"),
    ("Arnold Press", "Shoulders"),
    ("Push Press", "Olympic"),  -- duplicate key in source; Python dict keeps the last value
    ("Machine Shoulder Press", "Shoulders"),
    ("Lateral Raise", "Shoulders"),
    ("Cable Lateral Raise", "Shoulders"),
    ("Front Raise", "Shoulders"),
    ("Cable Front Raise", "Shoulders"),
    ("Upright Row", "Shoulders"),
    ("Cable Upright Row", "Shoulders"),
    ("Bent Over Lateral Raise", "Shoulders"),
    ("Cable Reverse Fly", "Shoulders"),
    ("Rear Delt Machine", "Shoulders"),
    ("Reverse Pec Deck", "Shoulders"),
    ("Handstand Push Up", "Shoulders"),
    ("Pike Push Up", "Shoulders"),
    ("Barbell Face Pull", "Shoulders"),
    ("Cable Face Pull", "Shoulders"),
    ("Landmine Lateral Raise", "Shoulders"),
    ("Bradford Press", "Shoulders"),
    ("Cuban Press", "Shoulders"),
    ("Dumbbell Complex", "Shoulders"),
    ("Lateral Raise Machine", "Shoulders"),
    ("YTW Raises", "Shoulders"),
    ("Bicep Curl", "Arms"),
    ("Barbell Curl", "Arms"),
    ("Dumbbell Curl", "Arms"),
    ("Alternating Dumbbell Curl", "Arms"),
    ("Hammer Curl", "Arms"),
    ("Incline Dumbbell Curl", "Arms"),
    ("Spider Curl", "Arms"),
    ("Preacher Curl", "Arms"),
    ("Cable Curl", "Arms"),
    ("Concentration Curl", "Arms"),
    ("EZ Bar Curl", "Arms"),
    ("Reverse Curl", "Arms"),
    ("Zottman Curl", "Arms"),
    ("21s", "Arms"),
    ("Machine Curl", "Arms"),
    ("Resistance Band Curl", "Arms"),
    ("Cross Body Curl", "Arms"),
    ("Scott Curl", "Arms"),
    ("Rope Hammer Curl", "Arms"),
    ("Drag Curl", "Arms"),
    ("Bayesian Curl", "Arms"),
    ("Tricep Extension", "Arms"),
    ("Tricep Pushdown", "Arms"),
    ("Rope Pushdown", "Arms"),
    ("V-Bar Pushdown", "Arms"),
    ("Overhead Tricep Extension", "Arms"),
    ("Skull Crusher", "Arms"),
    ("Close Grip Bench Press", "Arms"),
    ("Diamond Push Up", "Arms"),
    ("Dip", "Arms"),
    ("Tricep Kickback", "Arms"),
    ("JM Press", "Arms"),
    ("Tate Press", "Arms"),
    ("Board Press", "Arms"),
    ("Rolling Tricep Extension", "Arms"),
    ("Cable Overhead Tricep Extension", "Arms"),
    ("One Arm Overhead Extension", "Arms"),
    ("Machine Tricep Extension", "Arms"),
    ("Cable Tricep Extension", "Arms"),
    ("French Press", "Arms"),
    ("One Arm Pushdown", "Arms"),
    ("Bench Dip", "Arms"),
    ("Squat", "Legs"),
    ("Back Squat", "Legs"),
    ("Front Squat", "Legs"),
    ("Hack Squat", "Legs"),
    ("Goblet Squat", "Legs"),
    ("Bulgarian Split Squat", "Legs"),
    ("Lunge", "Legs"),
    ("Walking Lunge", "Legs"),
    ("Reverse Lunge", "Legs"),
    ("Lateral Lunge", "Legs"),
    ("Step Up", "Legs"),
    ("Box Jump", "Cardio"),  -- duplicate key in source; Python dict keeps the last value
    ("Leg Press", "Legs"),
    ("Leg Extension", "Legs"),
    ("Leg Curl", "Legs"),
    ("Seated Leg Curl", "Legs"),
    ("Lying Leg Curl", "Legs"),
    ("Standing Calf Raise", "Legs"),
    ("Seated Calf Raise", "Legs"),
    ("Single Leg Deadlift", "Legs"),
    ("Hip Thrust", "Legs"),
    ("Glute Bridge", "Legs"),
    ("Single Leg Glute Bridge", "Legs"),
    ("Pistol Squat", "Legs"),
    ("Sissy Squat", "Legs"),
    ("Wall Sit", "Legs"),
    ("Smith Machine Squat", "Legs"),
    ("Belt Squat", "Legs"),
    ("Jefferson Squat", "Legs"),
    ("Zercher Squat", "Legs"),
    ("Overhead Squat", "Olympic"),  -- duplicate key in source; Python dict keeps the last value
    ("Bodyweight Squat", "Legs"),
    ("Jump Squat", "Legs"),
    ("Split Squat", "Legs"),
    ("Hack Squat Machine", "Legs"),
    ("Donkey Calf Raise", "Legs"),
    ("Machine Calf Raise", "Legs"),
    ("Sled Push", "Cardio"),  -- duplicate key in source; Python dict keeps the last value
    ("Leg Adduction", "Legs"),
    ("Leg Abduction", "Legs"),
    ("Cable Pull Through", "Legs"),
    ("Glute Kickback", "Legs"),
    ("Nordic Curl", "Legs"),
    ("Kneeling Squat", "Legs"),
    ("Landmine Squat", "Legs"),
    ("Squat Jump", "Legs"),
    ("Box Squat", "Legs"),
    ("Cossack Squat", "Legs"),
    ("Barbell Glute Bridge", "Legs"),
    ("Smith Machine Calf Raise", "Legs"),
    ("Plank", "Core"),
    ("Side Plank", "Core"),
    ("Crunch", "Core"),
    ("Sit Up", "Core"),
    ("Russian Twist", "Core"),
    ("Leg Raise", "Core"),
    ("Hanging Leg Raise", "Core"),
    ("Cable Crunch", "Core"),
    ("Ab Wheel Rollout", "Core"),
    ("Mountain Climber", "Core"),
    ("V-Up", "Core"),
    ("Hollow Hold", "Core"),
    ("Dragon Flag", "Core"),
    ("Hanging Knee Raise", "Core"),
    ("Bicycle Crunch", "Core"),
    ("Dead Bug", "Core"),
    ("Bird Dog", "Core"),
    ("Wood Chopper", "Core"),
    ("Reverse Crunch", "Core"),
    ("Decline Sit Up", "Core"),
    ("Cable Wood Chopper", "Core"),
    ("Cable Twist", "Core"),
    ("Medicine Ball Slam", "Core"),
    ("Oblique Crunch", "Core"),
    ("Plank Variations", "Core"),
    ("L-Sit", "Core"),
    ("Windshield Wiper", "Core"),
    ("Toes to Bar", "Core"),
    ("Medicine Ball Throw", "Compound"),  -- duplicate key in source; Python dict keeps the last value
    ("Pallof Press", "Core"),
    ("Weighted Plank", "Core"),
    ("Weighted Crunch", "Core"),
    ("Suitcase Carry", "Core"),
    ("Farmer\x27s Walk", "Core"),
    ("Stomach Vacuum", "Core"),
    ("Side Bend", "Core"),
    ("Ab Machine Crunch", "Core"),
    ("Clean", "Olympic"),
    ("Power Clean", "Olympic"),
    ("Hang Clean", "Olympic"),
    ("Clean and Jerk", "Olympic"),
    ("Snatch", "Olympic"),
    ("Power Snatch", "Olympic"),
    ("Hang Snatch", "Olympic"),
    ("Clean Pull", "Olympic"),
    ("Snatch Pull", "Olympic"),
    ("Push Jerk", "Olympic"),
    ("Split Jerk", "Olympic"),
    ("High Pull", "Olympic"),
    ("Muscle Snatch", "Olympic"),
    ("Muscle Clean", "Olympic"),
    ("Hang Power Clean", "Olympic"),
    ("Hang Power Snatch", "Olympic"),
    ("Clean High Pull", "Olympic"),
    ("Snatch Balance", "Olympic"),
    ("Barbell Thruster", "Olympic"),
    ("Running", "Cardio"),
    ("Jogging", "Cardio"),
    ("Sprint", "Cardio"),
    ("Cycling", "Cardio"),
    ("Stationary Bike", "Cardio"),
    ("Elliptical", "Cardio"),
    ("Jump Rope", "Cardio"),
    ("Battle Ropes", "Cardio"),
    ("Swimming", "Cardio"),
    ("Rowing", "Cardio"),
    ("Walking", "Cardio"),
    ("Stair Climber", "Cardio"),
    ("Jumping Jack", "Cardio"),
    ("Burpee", "Cardio"),
    ("Treadmill", "Cardio"),
    ("HIIT", "Cardio"),
    ("Circuit Training", "Cardio"),
    ("Hill Sprint", "Cardio"),
    ("Ski Erg", "Cardio"),
    ("Assault Bike", "Cardio"),
    ("Sled Pull", "Cardio"),
    ("Prowler Push", "Cardio"),
    ("StairMaster", "Cardio"),
    ("Jacob\x27s Ladder", "Cardio"),
    ("VersoClimber", "Cardio"),
    ("Interval Training", "Cardio"),
    ("Airdyne Bike", "Cardio"),
    ("Turkish Get Up", "Compound"),
    ("Kettlebell Swing", "Compound"),
    ("Thruster", "Compound"),
    ("Farmer\x27s Carry", "Compound"),
    ("Trap Bar Carry", "Compound"),
    ("Sled Drag", "Compound"),
    ("Tire Flip", "Compound"),
    ("Battle Rope Exercise", "Compound"),
    ("Man Maker", "Compound"),
    ("Clean and Press", "Compound"),
    ("Sandbag Carry", "Compound"),
    ("Sandbag Clean", "Compound"),
    ("Log Press", "Compound"),
    ("Single Arm Dumbbell Snatch", "Compound"),
    ("Kettlebell Snatch", "Compound"),
    ("Kettlebell Clean", "Compound"),
    ("Medicine Ball Clean", "Compound")
  ]

def MUSCLE_GROUP_PATTERNS : List (String × List String) := [
  ("Chest", [
    "bench\\s*press", "push\\s*up", "chest\\s*press", "chest\\s*fly",
    "incline\\s*press", "decline\\s*press", "dip", "svend\\s*press",
    "pec\\s*deck", "cable\\s*cross", "chest\\s*dip"]),
  ("Back", [
    "deadlift", "row", "pull[\\s-]*up", "lat\\s*pull", "chin[\\s-]*up",
    "pulldown", "back\\s*extension", "good\\s*morning", "hyper\\s*extension",
    "pull\\s*over", "shrug", "face\\s*pull", "t\\s*bar"]),
  ("Legs", [
    "squat", "lunge", "leg\\s*press", "leg\\s*extension", "leg\\s*curl",
    "calf\\s*raise", "hip\\s*thrust", "hack\\s*squat", "glute\\s*bridge",
    "bulgarian\\s*split", "step\\s*up", "box\\s*jump", "pistol", "wall\\s*sit"]),
  ("Shoulders", [
    "shoulder\\s*press", "overhead\\s*press", "military\\s*press", "ohp",
    "lateral\\s*raise", "front\\s*raise", "rear\\s*delt", "upright\\s*row",
    "arnold\\s*press", "reverse\\s*fly", "face\\s*pull", "clean\\s*and\\s*press"]),
  ("Arms", [
    "curl", "tricep", "extension", "pushdown", "skull\\s*crusher",
    "hammer\\s*curl", "concentration\\s*curl", "preacher\\s*curl",
    "close\\s*grip", "diamond\\s*push", "dip", "kickback"]),
  ("Core", [
    "crunch", "sit[\\s-]*up", "plank", "ab", "russian\\s*twist",
    "leg\\s*raise", "mountain\\s*climber", "hollow\\s*hold", "v[\\s-]*up",
    "bicycle", "hanging\\s*leg", "rollout", "dragon\\s*flag"]),
  ("Cardio", [
    "run", "cardio", "elliptical", "bike", "cycling", "treadmill",
    "rowing", "jump\\s*rope", "burpee", "jumping\\s*jack", "sprint",
    "hiit", "interval", "stairmaster"]),
  ("Olympic", [
    "clean", "jerk", "snatch", "power\\s*clean", "hang\\s*clean",
    "split\\s*jerk", "push\\s*jerk", "push\\s*press"])
  ]

/-- Fixed muscle-group taxonomy from the data model. -/
def MUSCLE_TAXONOMY : List String :=
  ["Chest", "Back", "Shoulders", "Arms", "Legs", "Core", "Olympic", "Cardio",
   "Compound", "Other"]

/-- Model of a value reaching `map_exercise_to_muscle_group`: a Python string,
    `None`/`NaN`, or some non-string object. -/
inductive PyVal where
  | pstr : String → PyVal
  | pnone : PyVal
  | pnonstr : PyVal

/-- Embedding of `map_exercise_to_muscle_group` from `config/mappings.py`.
    Python's `not exercise_name or not isinstance(exercise_name, str)` is true
    exactly for `None`, non-strings, and the empty string. -/
def map_exercise_to_muscle_group (x : PyVal) : String :=
  match x with
  | .pnone => "Other"
  | .pnonstr => "Other"
  | .pstr s =>
    if s = "" then "Other"
    else
      match EXERCISE_MUSCLE_MAP.find? (fun p => lowerStr p.1 == lowerStr s) with
      | some p => p.2
      | none =>
        let el := (lowerStr s).data
        match EXERCISE_MUSCLE_MAP.find?
            (fun p => subChars (lowerStr p.1).data el || subChars el (lowerStr p.1).data) with
        | some p => p.2
        | none =>
          match MUSCLE_GROUP_PATTERNS.find? (fun g => g.2.any (fun pat => reSearch pat el)) with
          | some g => g.1
          | none => "Other"

lemma exercise_map_values_in_taxonomy :
    ∀ p ∈ EXERCISE_MUSCLE_MAP, p.2 ∈ MUSCLE_TAXONOMY := by decide

lemma pattern_keys_in_taxonomy :
    ∀ g ∈ MUSCLE_GROUP_PATTERNS, g.1 ∈ MUSCLE_TAXONOMY := by decide

lemma classify_str_mem (s : String) :
    map_exercise_to_muscle_group (.pstr s) ∈ MUSCLE_TAXONOMY := by
  simp only [map_exercise_to_muscle_group]
  split
  · decide
  · split
    · next p hp => exact exercise_map_values_in_taxonomy p (List.mem_of_find?_eq_some hp)
    · split
      · next p hp => exact exercise_map_values_in_taxonomy p (List.mem_of_find?_eq_some hp)
      · split
        · next g hg => exact pattern_keys_in_taxonomy g (List.mem_of_find?_eq_some hg)
        · decide

/-- C7: the muscle-group classifier is total: every input, including null,
    the empty string and non-string values, is mapped without error to a
    string of the fixed taxonomy; null/empty/non-string input maps to
    "Other" immediately, and an unmatched name falls back to "Other". -/
theorem C7_classifier_total :
    (∀ x : PyVal, map_exercise_to_muscle_group x ∈ MUSCLE_TAXONOMY) ∧
    map_exercise_to_muscle_group .pnone = "Other" ∧
    map_exercise_to_muscle_group (.pstr "") = "Other" ∧
    map_exercise_to_muscle_group .pnonstr = "Other" ∧
    map_exercise_to_muscle_group (.pstr "Quetzalcoatlus") = "Other" := by
  refine ⟨?_, rfl, by decide, rfl, by decide⟩
  intro x
  cases x with
  | pstr s => exact classify_str_mem s
  | pnone => decide
  | pnonstr => decide

/-! ### Brzycki one-rep-max estimate (`data/processor.py`, `calculate_1rm`) -/

/-- Embedding of `calculate_1rm`.  The float literal `1.1` is the rational
    `11/10`. -/
def calculate_1rm (weight reps : ℚ) : ℚ :=
  if reps ≤ 0 ∨ weight ≤ 0 then 0
  else if reps > 36 then weight * (11 / 10)
  else weight * (36 / (37 - reps))

lemma calculate_1rm_formula (w : ℚ) (n : ℕ) (h1 : 1 ≤ n) (h2 : n ≤ 36) (hw : 0 < w) :
    calculate_1rm w n = w * 36 / (37 - (n : ℚ)) := by
  have hn0 : ¬ ((n : ℚ) ≤ 0 ∨ w ≤ 0) := by
    push_neg
    exact ⟨by exact_mod_cast h1, hw⟩
  have hn36 : ¬ ((n : ℚ) > 36) := by
    rw [not_lt]
    exact_mod_cast h2
  rw [calculate_1rm, if_neg hn0, if_neg hn36, mul_div_assoc]

/-- C3 counterexample: the one-rep-max estimate is NOT strictly decreasing in
    the rep count on the Brzycki domain; at fixed weight 35, one rep gives 35
    while two reps give 36. -/
theorem C3_counterexample :
    calculate_1rm 35 1 = 35 ∧ calculate_1rm 35 2 = 36 ∧
    ¬ calculate_1rm 35 2 < calculate_1rm 35 1 := by
  refine ⟨by norm_num [calculate_1rm], by norm_num [calculate_1rm], ?_⟩
  norm_num [calculate_1rm]

/-- C3 (amended): for reps in [1, 36] and weight > 0 the estimate is
    weight * 36 / (37 - reps); for reps ≥ 37 and nonnegative weight it is the
    flat approximation weight * 1.1; for reps = 0 or weight = 0 it is exactly
    0; and for fixed positive weight the estimate is strictly INCREASING as
    reps increases within [1, 36]. -/
theorem C3_one_rep_max_amended :
    (∀ (w : ℚ) (n : ℕ), 1 ≤ n → n ≤ 36 → 0 < w →
      calculate_1rm w n = w * 36 / (37 - (n : ℚ))) ∧
    (∀ (w : ℚ) (n : ℕ), 37 ≤ n → 0 ≤ w → calculate_1rm w n = w * (11 / 10)) ∧
    (∀ w : ℚ, calculate_1rm w 0 = 0) ∧
    (∀ n : ℕ, calculate_1rm 0 n = 0) ∧
    (∀ (w : ℚ) (n m : ℕ), 0 < w → 1 ≤ n → n < m → m ≤ 36 →
      calculate_1rm w n < calculate_1rm w m) := by
  refine ⟨calculate_1rm_formula, ?_, ?_, ?_, ?_⟩
  · intro w n hn hw
    rcases eq_or_lt_of_le hw with hw0 | hw0
    · rw [calculate_1rm, if_pos (Or.inr (le_of_eq hw0.symm)), ← hw0]
      ring
    · have hn0 : ¬ ((n : ℚ) ≤ 0 ∨ w ≤ 0) := by
        push_neg
        refine ⟨by positivity, hw0⟩
      have hn36 : ((n : ℚ) > 36) := by
        have : (37 : ℚ) ≤ n := by exact_mod_cast hn
        linarith
      rw [calculate_1rm, if_neg hn0, if_pos hn36]
  · intro w
    rw [calculate_1rm, if_pos (Or.inl (by norm_num))]
  · intro n
    rw [calculate_1rm, if_pos (Or.inr (le_refl 0))]
  · intro w n m hw hn hnm hm
    rw [calculate_1rm_formula w n hn (le_of_lt (lt_of_lt_of_le hnm hm)) hw,
        calculate_1rm_formula w m (le_trans hn (le_of_lt hnm)) hm hw,
        mul_div_assoc, mul_div_assoc]
    have hmq : (m : ℚ) ≤ 36 := by exact_mod_cast hm
    have hnmq : (n : ℚ) < m := by exact_mod_cast hnm
    have h1 : (0 : ℚ) < 37 - m := by linarith
    have h2 : (0 : ℚ) < 37 - n := by linarith
    have : (36 : ℚ) / (37 - n) < 36 / (37 - m) := by
      rw [div_lt_div_iff₀ h2 h1]
      nlinarith
    exact mul_lt_mul_of_pos_left this hw

/-- C3 witness: each clause of the amended statement at a concrete input. -/
theorem C3_one_rep_max_amended_witness :
    calculate_1rm 35 1 = 35 * 36 / (37 - (1 : ℚ)) ∧
    calculate_1rm 20 40 = 20 * (11 / 10) ∧
    calculate_1rm 9 0 = 0 ∧
    calculate_1rm 0 5 = 0 ∧
    calculate_1rm 35 1 < calculate_1rm 35 2 :=
  ⟨C3_one_rep_max_amended.1 35 1 (by norm_num) (by norm_num) (by norm_num),
   C3_one_rep_max_amended.2.1 20 40 (by norm_num) (by norm_num),
   C3_one_rep_max_amended.2.2.1 9,
   C3_one_rep_max_amended.2.2.2.1 5,
   C3_one_rep_max_amended.2.2.2.2 35 1 2 (by norm_num) (by norm_num) (by norm_num)
     (by norm_num)⟩

/-! ### Data model for parsed and enriched rows

`RawCell` models one CSV cell as pandas sees it after reading: a numeric
value, a string, a date-like value (an absolute day number), or an empty /
unparseable cell (`NaN`).
-/

inductive RawCell where
  | rnum : ℚ → RawCell
  | rstr : String → RawCell
  | rdate : ℕ → RawCell
  | rempty : RawCell
deriving DecidableEq

/-- One row of the enriched dataset produced by `preprocess_data`
    (`data/processor.py`).  Presentation-only calendar fields (Year, Month,
    MonthName, Weekday, ...) are functions of `date` alone and are not
    modelled; `date` is an absolute day number, which is everything the
    analysed logic observes (ordering, equality, day differences). -/
@[ext]
structure EnrichedRow where
  date : ℕ
  workoutName : RawCell
  exercise : RawCell
  setOrder : Option ℚ
  weight : ℚ
  reps : ℚ
  volume : ℚ
  muscleGroup : String
  onerm : ℚ
  restDaysAfter : Option ℤ
  workoutId : String
  isWeightPr : Bool
  isRepsPr : Bool
  isVolumePr : Bool
  is1rmPr : Bool
  isAnyPr : Bool
deriving DecidableEq

/-! ### Personal-record engine (`data/processor.py`, `identify_personal_records`)

The Python code groups by exercise name, sorts each group by date, walks it
keeping four running maxima (weight, reps, volume, 1RM) initialised to 0,
collects the original DataFrame indices that set a new record, and finally
writes the flags back by index.  The embedding mirrors this: `prGroup`
extracts one exercise's rows (tagged with their original index, keeping
only the columns the scan reads), `prLoop` is the scan, and
`identify_personal_records` writes the flags back by index.
-/

structure PrTuple where
  idx : ℕ
  pdate : ℕ
  pweight : ℚ
  preps : ℚ
  pvolume : ℚ
  ponerm : ℚ
deriving DecidableEq

/-- One exercise's rows with their original positions, sorted by date
    (stable, preserving input order on equal dates). -/
def prGroup (rows : List EnrichedRow) (e : RawCell) : List PrTuple :=
  ((rows.enum.filter (fun p => p.2.exercise == e)).map
    (fun p => ⟨p.1, p.2.date, p.2.weight, p.2.reps, p.2.volume, p.2.onerm⟩)).mergeSort
    (fun a b => a.pdate ≤ b.pdate)

/-- The chronological scan: four running maxima, four lists of flagged
    original indices.  A dimension flags a row iff its value strictly exceeds
    the running maximum and is positive; the maximum is updated exactly
    when the flag is set. -/
def prLoop : ℚ → ℚ → ℚ → ℚ → List PrTuple → List ℕ × List ℕ × List ℕ × List ℕ
  | _, _, _, _, [] => ([], [], [], [])
  | mw, mr, mv, m1, t :: ts =>
    let wb : Bool := decide (mw < t.pweight ∧ 0 < t.pweight)
    let rb : Bool := decide (mr < t.preps ∧ 0 < t.preps)
    let vb : Bool := decide (mv < t.pvolume ∧ 0 < t.pvolume)
    let ob : Bool := decide (m1 < t.ponerm ∧ 0 < t.ponerm)
    let rest := prLoop (if wb then t.pweight else mw) (if rb then t.preps else mr)
      (if vb then t.pvolume else mv) (if ob then t.ponerm else m1) ts
    (if wb then t.idx :: rest.1 else rest.1,
     if rb then t.idx :: rest.2.1 else rest.2.1,
     if vb then t.idx :: rest.2.2.1 else rest.2.2.1,
     if ob then t.idx :: rest.2.2.2 else rest.2.2.2)

/-- Exercise keys of the dataset.  pandas `groupby` iterates keys in sorted
    order; the scans of distinct keys touch disjoint index sets, so the
    resulting flag assignment does not depend on key order and
    first-occurrence order is used here. -/
def exerciseKeys (rows : List EnrichedRow) : List RawCell :=
  (rows.map (·.exercise)).dedup

/-- All flagged indices, per dimension, across every exercise group. -/
def allPrIdx (rows : List EnrichedRow) : List ℕ × List ℕ × List ℕ × List ℕ :=
  (exerciseKeys rows).foldr
    (fun e acc =>
      let q := prLoop 0 0 0 0 (prGroup rows e)
      (q.1 ++ acc.1, q.2.1 ++ acc.2.1, q.2.2.1 ++ acc.2.2.1, q.2.2.2 ++ acc.2.2.2))
    ([], [], [], [])

/-- Write the five PR flag columns of one row from the flagged index sets;
    all other fields are copied unchanged. -/
def applyPrFlags (q : List ℕ × List ℕ × List ℕ × List ℕ) (p : ℕ × EnrichedRow) : EnrichedRow :=
  { p.2 with
    isWeightPr := decide (p.1 ∈ q.1),
    isRepsPr := decide (p.1 ∈ q.2.1),
    isVolumePr := decide (p.1 ∈ q.2.2.1),
    is1rmPr := decide (p.1 ∈ q.2.2.2),
    isAnyPr := decide (p.1 ∈ q.1) || decide (p.1 ∈ q.2.1) ||
      decide (p.1 ∈ q.2.2.1) || decide (p.1 ∈ q.2.2.2) }

/-- Embedding of `identify_personal_records`: compute the flagged index sets
    and write the PR flag columns back by original row position. -/
def identify_personal_records (rows : List EnrichedRow) : List EnrichedRow :=
  rows.enum.map (applyPrFlags (allPrIdx rows))

/-! #### Scan lemmas for the personal-record engine -/

/-- Single-dimension view of the scan: the indices flagged for one metric. -/
def prScan (f : PrTuple → ℚ) : ℚ → List PrTuple → List ℕ
  | _, [] => []
  | m, t :: ts =>
    if m < f t ∧ 0 < f t then t.idx :: prScan f (f t) ts else prScan f m ts

/-- The running-maximum update step the scan performs on one value. -/
def prStep (m v : ℚ) : ℚ := if m < v ∧ 0 < v then v else m

/-- Running maximum of a metric over the first `k` rows of a group,
    starting from `m`. -/
def runMaxFrom (f : PrTuple → ℚ) (m : ℚ) (g : List PrTuple) (k : ℕ) : ℚ :=
  ((g.take k).map f).foldl prStep m

lemma prLoop_fst : ∀ (ts : List PrTuple) (mw mr mv m1 : ℚ),
    (prLoop mw mr mv m1 ts).1 = prScan (·.pweight) mw ts := by
  intro ts
  induction ts with
  | nil => intro mw mr mv m1; rfl
  | cons t ts ih =>
    intro mw mr mv m1
    by_cases hw : mw < t.pweight ∧ 0 < t.pweight <;>
      simp [prLoop, prScan, hw, ih]

lemma prLoop_reps : ∀ (ts : List PrTuple) (mw mr mv m1 : ℚ),
    (prLoop mw mr mv m1 ts).2.1 = prScan (·.preps) mr ts := by
  intro ts
  induction ts with
  | nil => intro mw mr mv m1; rfl
  | cons t ts ih =>
    intro mw mr mv m1
    by_cases hr : mr < t.preps ∧ 0 < t.preps <;>
      simp [prLoop, prScan, hr, ih]

lemma prLoop_volume : ∀ (ts : List PrTuple) (mw mr mv m1 : ℚ),
    (prLoop mw mr mv m1 ts).2.2.1 = prScan (·.pvolume) mv ts := by
  intro ts
  induction ts with
  | nil => intro mw mr mv m1; rfl
  | cons t ts ih =>
    intro mw mr mv m1
    by_cases hv : mv < t.pvolume ∧ 0 < t.pvolume <;>
      simp [prLoop, prScan, hv, ih]

lemma prLoop_onerm : ∀ (ts : List PrTuple) (mw mr mv m1 : ℚ),
    (prLoop mw mr mv m1 ts).2.2.2 = prScan (·.ponerm) m1 ts := by
  intro ts
  induction ts with
  | nil => intro mw mr mv m1; rfl
  | cons t ts ih =>
    intro mw mr mv m1
    by_cases ho : m1 < t.ponerm ∧ 0 < t.ponerm <;>
      simp [prLoop, prScan, ho, ih]

lemma prScan_subset (f : PrTuple → ℚ) :
    ∀ (ts : List PrTuple) (m : ℚ) (j : ℕ), j ∈ prScan f m ts → j ∈ ts.map (·.idx) := by
  intro ts
  induction ts with
  | nil => intro m j h; exact absurd h (List.not_mem_nil j)
  | cons t ts ih =>
    intro m j h
    by_cases hb : m < f t ∧ 0 < f t
    · rw [prScan, if_pos hb] at h
      rcases List.mem_cons.1 h with h | h
      · simp [h]
      · exact List.mem_cons_of_mem _ (ih _ _ h)
    · rw [prScan, if_neg hb] at h
      exact List.mem_cons_of_mem _ (ih _ _ h)

/-- Characterization of the scan: a group row's index is flagged iff its
    value strictly exceeds the running maximum accumulated over the earlier
    rows and is positive. -/
lemma prScan_get_iff (f : PrTuple → ℚ) :
    ∀ (g : List PrTuple), (g.map (·.idx)).Nodup →
      ∀ (m : ℚ) (k : ℕ) (hk : k < g.length),
        ((g.get ⟨k, hk⟩).idx ∈ prScan f m g ↔
          (runMaxFrom f m g k < f (g.get ⟨k, hk⟩) ∧ 0 < f (g.get ⟨k, hk⟩))) := by
  intro g
  induction g with
  | nil => intro _ m k hk; exact absurd hk (Nat.not_lt_zero k)
  | cons t ts ih =>
    intro hnd m k hk
    rw [List.map_cons, List.nodup_cons] at hnd
    cases k with
    | zero =>
      show (t.idx ∈ prScan f m (t :: ts) ↔ (runMaxFrom f m (t :: ts) 0 < f t ∧ 0 < f t))
      have hrm : runMaxFrom f m (t :: ts) 0 = m := rfl
      rw [hrm]
      by_cases hb : m < f t ∧ 0 < f t
      · rw [prScan, if_pos hb]
        simp [hb]
      · rw [prScan, if_neg hb]
        constructor
        · intro hmem
          exact absurd (prScan_subset f ts m t.idx hmem) hnd.1
        · intro hc; exact absurd hc hb
    | succ k =>
      have hk' : k < ts.length := Nat.lt_of_succ_lt_succ hk
      have hget : (t :: ts).get ⟨k + 1, hk⟩ = ts.get ⟨k, hk'⟩ := rfl
      rw [hget]
      have hidxmem : (ts.get ⟨k, hk'⟩).idx ∈ ts.map (·.idx) :=
        List.mem_map.2 ⟨ts.get ⟨k, hk'⟩, List.get_mem ts k hk', rfl⟩
      have hne : (ts.get ⟨k, hk'⟩).idx ≠ t.idx := by
        intro he
        exact hnd.1 (he ▸ hidxmem)
      have hrm : runMaxFrom f m (t :: ts) (k + 1) = runMaxFrom f (prStep m (f t)) ts k := by
        simp [runMaxFrom, prStep]
      rw [hrm]
      by_cases hb : m < f t ∧ 0 < f t
      · rw [prScan, if_pos hb]
        rw [List.mem_cons]
        have hstep : prStep m (f t) = f t := by rw [prStep, if_pos hb]
        rw [hstep]
        constructor
        · rintro (h | h)
          · exact absurd h hne
          · exact (ih hnd.2 (f t) k hk').1 h
        · intro h
          exact Or.inr ((ih hnd.2 (f t) k hk').2 h)
      · rw [prScan, if_neg hb]
        have hstep : prStep m (f t) = m := by rw [prStep, if_neg hb]
        rw [hstep]
        exact ih hnd.2 m k hk'

lemma runMaxFrom_succ (f : PrTuple → ℚ) (m : ℚ) (g : List PrTuple) (k : ℕ)
    (hk : k < g.length) :
    runMaxFrom f m g (k + 1) = prStep (runMaxFrom f m g k) (f (g.get ⟨k, hk⟩)) := by
  have h1 : List.take (k + 1) g = List.take k g ++ [g.get ⟨k, hk⟩] := by
    rw [List.take_succ, List.getElem?_eq_getElem hk]
    rfl
  rw [runMaxFrom, runMaxFrom, h1, List.map_append, List.foldl_append]
  rfl

/-! #### Group lemmas -/

lemma prGroup_mem {rows : List EnrichedRow} {e : RawCell} {t : PrTuple}
    (ht : t ∈ prGroup rows e) :
    (rows[t.idx]?).map (fun r => r.exercise) = some e := by
  rw [prGroup, List.mem_mergeSort] at ht
  rcases List.mem_map.1 ht with ⟨p, hp, hpt⟩
  rcases List.mem_filter.1 hp with ⟨hpe, hpred⟩
  obtain ⟨i, r⟩ := p
  obtain ⟨hlt, hr⟩ := List.mem_enum hpe
  have hex : r.exercise = e := of_decide_eq_true hpred
  have hidx : t.idx = i := by rw [← hpt]
  rw [hidx, List.getElem?_eq_getElem hlt]
  simp [← hr, hex]

lemma prGroup_idx_lt {rows : List EnrichedRow} {e : RawCell} {t : PrTuple}
    (ht : t ∈ prGroup rows e) : t.idx < rows.length := by
  have h := prGroup_mem ht
  rcases Option.map_eq_some'.1 h with ⟨r, hr, _⟩
  exact (List.getElem?_eq_some_iff.1 hr).1

lemma prGroup_idx_nodup (rows : List EnrichedRow) (e : RawCell) :
    ((prGroup rows e).map (·.idx)).Nodup := by
  rw [prGroup]
  have hperm :
      ((((rows.enum.filter (fun p => p.2.exercise == e)).map
        (fun p => (⟨p.1, p.2.date, p.2.weight, p.2.reps, p.2.volume, p.2.onerm⟩ : PrTuple))).mergeSort
        (fun a b => a.pdate ≤ b.pdate)).map (·.idx)).Perm
      (((rows.enum.filter (fun p => p.2.exercise == e)).map
        (fun p => (⟨p.1, p.2.date, p.2.weight, p.2.reps, p.2.volume, p.2.onerm⟩ : PrTuple))).map (·.idx)) :=
    (List.mergeSort_perm _ _).map _
  rw [hperm.nodup_iff, List.map_map]
  have hsub : ((rows.enum.filter (fun p => p.2.exercise == e)).map Prod.fst).Sublist
      (rows.enum.map Prod.fst) := (List.filter_sublist _).map _
  have heq : ((rows.enum.filter (fun p => p.2.exercise == e)).map
      ((fun t : PrTuple => t.idx) ∘
        (fun p => (⟨p.1, p.2.date, p.2.weight, p.2.reps, p.2.volume, p.2.onerm⟩ : PrTuple)))) =
      ((rows.enum.filter (fun p => p.2.exercise == e)).map Prod.fst) := rfl
  rw [heq]
  exact hsub.nodup (by rw [List.enum_map_fst]; exact List.nodup_range _)

lemma allPrFold_eq (rows : List EnrichedRow) : ∀ ks : List RawCell,
    ks.foldr
      (fun e acc =>
        let q := prLoop 0 0 0 0 (prGroup rows e)
        (q.1 ++ acc.1, q.2.1 ++ acc.2.1, q.2.2.1 ++ acc.2.2.1, q.2.2.2 ++ acc.2.2.2))
      ([], [], [], []) =
    (ks.flatMap (fun e => prScan (·.pweight) 0 (prGroup rows e)),
     ks.flatMap (fun e => prScan (·.preps) 0 (prGroup rows e)),
     ks.flatMap (fun e => prScan (·.pvolume) 0 (prGroup rows e)),
     ks.flatMap (fun e => prScan (·.ponerm) 0 (prGroup rows e))) := by
  intro ks
  induction ks with
  | nil => rfl
  | cons e ks ih =>
    rw [List.foldr_cons, ih]
    simp only [List.flatMap_cons, prLoop_fst, prLoop_reps, prLoop_volume, prLoop_onerm]

lemma allPrIdx_eq (rows : List EnrichedRow) :
    allPrIdx rows =
      ((exerciseKeys rows).flatMap (fun e => prScan (·.pweight) 0 (prGroup rows e)),
       (exerciseKeys rows).flatMap (fun e => prScan (·.preps) 0 (prGroup rows e)),
       (exerciseKeys rows).flatMap (fun e => prScan (·.pvolume) 0 (prGroup rows e)),
       (exerciseKeys rows).flatMap (fun e => prScan (·.ponerm) 0 (prGroup rows e))) := by
  rw [allPrIdx, allPrFold_eq]

lemma idx_mem_flat_iff (rows : List EnrichedRow) (f : PrTuple → ℚ) {e : RawCell} {t : PrTuple}
    (ht : t ∈ prGroup rows e) :
    (t.idx ∈ (exerciseKeys rows).flatMap (fun x => prScan f 0 (prGroup rows x)) ↔
      t.idx ∈ prScan f 0 (prGroup rows e)) := by
  have hex := prGroup_mem ht
  rw [List.mem_flatMap]
  constructor
  · rintro ⟨e2, _, hmem⟩
    by_cases hee : e2 = e
    · exact hee ▸ hmem
    · exfalso
      have hsub := prScan_subset f _ _ _ hmem
      rcases List.mem_map.1 hsub with ⟨t2, ht2, hidx2⟩
      have hex2 := prGroup_mem ht2
      rw [hidx2, hex] at hex2
      exact hee (Option.some_injective _ hex2.symm)
  · intro hmem
    rcases Option.map_eq_some'.1 hex with ⟨r, hr, hre⟩
    have hmemr : r ∈ rows := by
      rcases List.getElem?_eq_some_iff.1 hr with ⟨hl, hg⟩
      exact hg ▸ List.getElem_mem hl
    have he : e ∈ exerciseKeys rows := by
      rw [exerciseKeys, List.mem_dedup]
      exact List.mem_map.2 ⟨r, hmemr, hre⟩
    exact ⟨e, he, hmem⟩

/-- C4: in the personal-record engine, for each exercise group scanned in
    chronological order, a dimension's PR flag is set on a row iff that row's
    value strictly exceeds the running maximum so far (initialised to 0) and
    is positive — ties and zero rows are never PRs, the first positive row of
    a dimension always is — and the running maximum advances exactly when a
    flag is set; the any-PR flag is the disjunction of the four. -/
theorem C4_pr_flag_characterization (rows : List EnrichedRow) (e : RawCell) (k : ℕ)
    (t : PrTuple) (ht : (prGroup rows e)[k]? = some t) :
    ∃ out : EnrichedRow,
      (identify_personal_records rows)[t.idx]? = some out ∧
      (out.isWeightPr =
        decide (runMaxFrom (·.pweight) 0 (prGroup rows e) k < t.pweight ∧ 0 < t.pweight)) ∧
      (out.isRepsPr =
        decide (runMaxFrom (·.preps) 0 (prGroup rows e) k < t.preps ∧ 0 < t.preps)) ∧
      (out.isVolumePr =
        decide (runMaxFrom (·.pvolume) 0 (prGroup rows e) k < t.pvolume ∧ 0 < t.pvolume)) ∧
      (out.is1rmPr =
        decide (runMaxFrom (·.ponerm) 0 (prGroup rows e) k < t.ponerm ∧ 0 < t.ponerm)) ∧
      (out.isAnyPr = (out.isWeightPr || out.isRepsPr || out.isVolumePr || out.is1rmPr)) ∧
      (runMaxFrom (·.pweight) 0 (prGroup rows e) (k + 1) =
        if runMaxFrom (·.pweight) 0 (prGroup rows e) k < t.pweight ∧ 0 < t.pweight
        then t.pweight else runMaxFrom (·.pweight) 0 (prGroup rows e) k) ∧
      (runMaxFrom (·.preps) 0 (prGroup rows e) (k + 1) =
        if runMaxFrom (·.preps) 0 (prGroup rows e) k < t.preps ∧ 0 < t.preps
        then t.preps else runMaxFrom (·.preps) 0 (prGroup rows e) k) ∧
      (runMaxFrom (·.pvolume) 0 (prGroup rows e) (k + 1) =
        if runMaxFrom (·.pvolume) 0 (prGroup rows e) k < t.pvolume ∧ 0 < t.pvolume
        then t.pvolume else runMaxFrom (·.pvolume) 0 (prGroup rows e) k) ∧
      (runMaxFrom (·.ponerm) 0 (prGroup rows e) (k + 1) =
        if runMaxFrom (·.ponerm) 0 (prGroup rows e) k < t.ponerm ∧ 0 < t.ponerm
        then t.ponerm else runMaxFrom (·.ponerm) 0 (prGroup rows e) k) := by
  have hk : k < (prGroup rows e).length := (List.getElem?_eq_some_iff.1 ht).1
  have hget : (prGroup rows e).get ⟨k, hk⟩ = t := (List.getElem?_eq_some_iff.1 ht).2
  have htm : t ∈ prGroup rows e := by
    rw [← hget]
    exact List.get_mem _ k hk
  have hlt : t.idx < rows.length := prGroup_idx_lt htm
  have henum : rows.enum[t.idx]? = some (t.idx, rows.get ⟨t.idx, hlt⟩) := by
    rw [List.getElem?_enum, List.getElem?_eq_getElem hlt]
    rfl
  have hout : (identify_personal_records rows)[t.idx]? =
      some (applyPrFlags (allPrIdx rows) (t.idx, rows.get ⟨t.idx, hlt⟩)) := by
    rw [identify_personal_records, List.getElem?_map, henum]
    rfl
  refine ⟨_, hout, ?_, ?_, ?_, ?_, rfl, ?_, ?_, ?_, ?_⟩
  · show decide (t.idx ∈ (allPrIdx rows).1) = _
    rw [allPrIdx_eq]
    apply decide_eq_decide.2
    rw [idx_mem_flat_iff rows _ htm, ← hget,
      prScan_get_iff _ _ (prGroup_idx_nodup rows e) 0 k hk]
  · show decide (t.idx ∈ (allPrIdx rows).2.1) = _
    rw [allPrIdx_eq]
    apply decide_eq_decide.2
    rw [idx_mem_flat_iff rows _ htm, ← hget,
      prScan_get_iff _ _ (prGroup_idx_nodup rows e) 0 k hk]
  · show decide (t.idx ∈ (allPrIdx rows).2.2.1) = _
    rw [allPrIdx_eq]
    apply decide_eq_decide.2
    rw [idx_mem_flat_iff rows _ htm, ← hget,
      prScan_get_iff _ _ (prGroup_idx_nodup rows e) 0 k hk]
  · show decide (t.idx ∈ (allPrIdx rows).2.2.2) = _
    rw [allPrIdx_eq]
    apply decide_eq_decide.2
    rw [idx_mem_flat_iff rows _ htm, ← hget,
      prScan_get_iff _ _ (prGroup_idx_nodup rows e) 0 k hk]
  · rw [runMaxFrom_succ _ _ _ _ hk, hget]
    rfl
  · rw [runMaxFrom_succ _ _ _ _ hk, hget]
    rfl
  · rw [runMaxFrom_succ _ _ _ _ hk, hget]
    rfl
  · rw [runMaxFrom_succ _ _ _ _ hk, hget]
    rfl

/-! #### Idempotence of PR flagging -/

lemma enum_map_pair_aux (F : ℕ × EnrichedRow → EnrichedRow) :
    ∀ (l : List EnrichedRow) (n : ℕ),
      ((l.enumFrom n).map F).enumFrom n = (l.enumFrom n).map (fun p => (p.1, F p)) := by
  intro l
  induction l with
  | nil => intro n; rfl
  | cons a l ih =>
    intro n
    simp only [List.enumFrom, List.map_cons]
    rw [ih (n + 1)]

lemma enum_map_pair (l : List EnrichedRow) (F : ℕ × EnrichedRow → EnrichedRow) :
    (l.enum.map F).enum = l.enum.map (fun p => (p.1, F p)) := by
  rw [List.enum_eq_enumFrom, List.enum_eq_enumFrom]
  exact enum_map_pair_aux F l 0

lemma identify_enum (rows : List EnrichedRow) :
    (identify_personal_records rows).enum =
      rows.enum.map (fun p => (p.1, applyPrFlags (allPrIdx rows) p)) := by
  rw [identify_personal_records]
  exact enum_map_pair rows (applyPrFlags (allPrIdx rows))

lemma prGroup_identify (rows : List EnrichedRow) (e : RawCell) :
    prGroup (identify_personal_records rows) e = prGroup rows e := by
  rw [prGroup, prGroup, identify_enum, List.filter_map, List.map_map]
  have hpred : ((fun p : ℕ × EnrichedRow => p.2.exercise == e) ∘
      (fun p : ℕ × EnrichedRow => (p.1, applyPrFlags (allPrIdx rows) p))) =
      (fun p : ℕ × EnrichedRow => p.2.exercise == e) := rfl
  have hproj : ((fun p : ℕ × EnrichedRow =>
        (⟨p.1, p.2.date, p.2.weight, p.2.reps, p.2.volume, p.2.onerm⟩ : PrTuple)) ∘
      (fun p : ℕ × EnrichedRow => (p.1, applyPrFlags (allPrIdx rows) p))) =
      (fun p : ℕ × EnrichedRow =>
        (⟨p.1, p.2.date, p.2.weight, p.2.reps, p.2.volume, p.2.onerm⟩ : PrTuple)) := rfl
  rw [hpred, hproj]

lemma identify_map_exercise (rows : List EnrichedRow) :
    (identify_personal_records rows).map (·.exercise) = rows.map (·.exercise) := by
  rw [identify_personal_records, List.map_map]
  have h1 : ((fun r : EnrichedRow => r.exercise) ∘ applyPrFlags (allPrIdx rows)) =
      ((fun r : EnrichedRow => r.exercise) ∘ Prod.snd) := rfl
  rw [h1, ← List.map_map, List.enum_map_snd]

lemma exerciseKeys_identify (rows : List EnrichedRow) :
    exerciseKeys (identify_personal_records rows) = exerciseKeys rows := by
  rw [exerciseKeys, exerciseKeys, identify_map_exercise]

lemma allPrIdx_identify (rows : List EnrichedRow) :
    allPrIdx (identify_personal_records rows) = allPrIdx rows := by
  rw [allPrIdx_eq, allPrIdx_eq, exerciseKeys_identify]
  simp only [prGroup_identify]

/-- C6: PR flagging is idempotent — reapplying `identify_personal_records`
    to an already-flagged dataset yields exactly the same rows, because the
    computation reads only the weight/reps/volume/1RM/date/exercise columns,
    never the existing flag state. -/
theorem C6_pr_flagging_idempotent (rows : List EnrichedRow) :
    identify_personal_records (identify_personal_records rows) =
      identify_personal_records rows := by
  show (identify_personal_records rows).enum.map
      (applyPrFlags (allPrIdx (identify_personal_records rows))) = _
  rw [allPrIdx_identify, identify_enum, List.map_map]
  rfl

/-- Concrete enriched row used by the C4 witness (spec Scenario A shape). -/
def c4row (d : ℕ) (w r v o : ℚ) : EnrichedRow :=
  { date := d, workoutName := .rstr "Push Day", exercise := .rstr "Bench Press",
    setOrder := some 1, weight := w, reps := r, volume := v, muscleGroup := "Chest",
    onerm := o, restDaysAfter := none, workoutId := "", isWeightPr := false,
    isRepsPr := false, isVolumePr := false, is1rmPr := false, isAnyPr := false }

def c4Rows : List EnrichedRow := [c4row 10 60 5 300 70, c4row 17 65 5 325 75]

def c4t : PrTuple := ⟨1, 17, 65, 5, 325, 75⟩

/-- C4 witness: the characterization applied to a concrete two-row dataset at
    the second chronological row of its exercise group. -/
theorem C4_pr_flag_characterization_witness :
    ∃ out : EnrichedRow,
      (identify_personal_records c4Rows)[c4t.idx]? = some out ∧
      (out.isWeightPr =
        decide (runMaxFrom (·.pweight) 0 (prGroup c4Rows (.rstr "Bench Press")) 1 < c4t.pweight ∧
          0 < c4t.pweight)) ∧
      (out.isRepsPr =
        decide (runMaxFrom (·.preps) 0 (prGroup c4Rows (.rstr "Bench Press")) 1 < c4t.preps ∧
          0 < c4t.preps)) ∧
      (out.isVolumePr =
        decide (runMaxFrom (·.pvolume) 0 (prGroup c4Rows (.rstr "Bench Press")) 1 < c4t.pvolume ∧
          0 < c4t.pvolume)) ∧
      (out.is1rmPr =
        decide (runMaxFrom (·.ponerm) 0 (prGroup c4Rows (.rstr "Bench Press")) 1 < c4t.ponerm ∧
          0 < c4t.ponerm)) ∧
      (out.isAnyPr = (out.isWeightPr || out.isRepsPr || out.isVolumePr || out.is1rmPr)) ∧
      (runMaxFrom (·.pweight) 0 (prGroup c4Rows (.rstr "Bench Press")) 2 =
        if runMaxFrom (·.pweight) 0 (prGroup c4Rows (.rstr "Bench Press")) 1 < c4t.pweight ∧
            0 < c4t.pweight
        then c4t.pweight else runMaxFrom (·.pweight) 0 (prGroup c4Rows (.rstr "Bench Press")) 1) ∧
      (runMaxFrom (·.preps) 0 (prGroup c4Rows (.rstr "Bench Press")) 2 =
        if runMaxFrom (·.preps) 0 (prGroup c4Rows (.rstr "Bench Press")) 1 < c4t.preps ∧
            0 < c4t.preps
        then c4t.preps else runMaxFrom (·.preps) 0 (prGroup c4Rows (.rstr "Bench Press")) 1) ∧
      (runMaxFrom (·.pvolume) 0 (prGroup c4Rows (.rstr "Bench Press")) 2 =
        if runMaxFrom (·.pvolume) 0 (prGroup c4Rows (.rstr "Bench Press")) 1 < c4t.pvolume ∧
            0 < c4t.pvolume
        then c4t.pvolume else runMaxFrom (·.pvolume) 0 (prGroup c4Rows (.rstr "Bench Press")) 1) ∧
      (runMaxFrom (·.ponerm) 0 (prGroup c4Rows (.rstr "Bench Press")) 2 =
        if runMaxFrom (·.ponerm) 0 (prGroup c4Rows (.rstr "Bench Press")) 1 < c4t.ponerm ∧
            0 < c4t.ponerm
        then c4t.ponerm else runMaxFrom (·.ponerm) 0 (prGroup c4Rows (.rstr "Bench Press")) 1) :=
  C4_pr_flag_characterization c4Rows (.rstr "Bench Press") 1 c4t
    (by simp [prGroup, c4Rows, c4row, c4t, List.mergeSort, List.merge, List.enum,
      List.enumFrom, List.filter])

/-! ### Plateau detection

Two independently evolved copies exist in the repository:
`identify_plateaus` in `data/processor.py` (guards on the raw row count,
counts the plateau from 1, records `duration`) and `detect_plateaus` in
`analysis/exercise.py` (guards on the grouped date count, counts from 0,
records `workouts`).  Both group the exercise's rows by date, take the max
weight per date in chronological order, and scan.
-/

/-- Maximum of a list of rationals, as pandas `max` over a (nonempty) group. -/
def qMaxList : List ℚ → ℚ
  | [] => 0
  | x :: xs => xs.foldl max x

/-- Sorted distinct dates of a row set (pandas `groupby` key order). -/
def sortedDatesOf (rows : List EnrichedRow) : List ℕ :=
  ((rows.map (·.date)).dedup).mergeSort (fun a b => a ≤ b)

/-- Per-date maximum weight, in chronological date order
    (`groupby('Date')['Weight (kg)'].max()`). -/
def groupMaxWeightByDate (rows : List EnrichedRow) : List (ℕ × ℚ) :=
  (sortedDatesOf rows).map (fun d =>
    (d, qMaxList ((rows.filter (fun r => r.date == d)).map (·.weight))))

structure Plateau1 where
  startDate : Option ℕ
  endDate : ℕ
  duration : ℕ
  weight : ℚ
deriving DecidableEq

structure Plateau2 where
  ptype : String
  startDate : Option ℕ
  endDate : ℕ
  value : ℚ
  workouts : ℕ
deriving DecidableEq

/-- Scan loop of `identify_plateaus`: state is (plateau_start,
    current_weight, same_weight_count, previous grouped entry). -/
def identifyPlateausLoop (window : ℕ) :
    Option ℕ → ℚ → ℕ → ℕ × ℚ → List (ℕ × ℚ) → List Plateau1
  | pstart, cw, cnt, prev, [] =>
    if cnt ≥ window then
      [{ startDate := pstart, endDate := prev.1, duration := cnt, weight := cw }]
    else []
  | pstart, cw, cnt, prev, (d, w) :: rest =>
    if w ≤ cw then
      identifyPlateausLoop window (some (pstart.getD prev.1)) cw (cnt + 1) (d, w) rest
    else
      (if cnt ≥ window then
        [{ startDate := pstart, endDate := prev.1, duration := cnt, weight := cw }]
       else []) ++ identifyPlateausLoop window none w 1 (d, w) rest

/-- Embedding of `identify_plateaus` (`data/processor.py`).  The empty
    grouped case (possible only for `window = 0` on an empty filtered frame,
    where the Python code would fault on `iloc[0]`) returns `[]`. -/
def identify_plateaus (rows : List EnrichedRow) (e : RawCell) (window : ℕ) : List Plateau1 :=
  let exRows := rows.filter (fun r => r.exercise == e)
  if exRows.length < window then []
  else
    match groupMaxWeightByDate exRows with
    | [] => []
    | g0 :: grest => identifyPlateausLoop window none g0.2 1 g0 grest

/-- Scan loop of `detect_plateaus`: state is (plateau_start,
    max_weight_so_far, plateau_length, previous grouped entry). -/
def detectPlateausLoop (window : ℕ) :
    Option ℕ → ℚ → ℕ → ℕ × ℚ → List (ℕ × ℚ) → List Plateau2
  | pstart, mx, plen, prev, [] =>
    if plen ≥ window then
      [{ ptype := "weight", startDate := pstart, endDate := prev.1, value := mx,
         workouts := plen }]
    else []
  | pstart, mx, plen, prev, (d, w) :: rest =>
    if w ≤ mx then
      detectPlateausLoop window (some (pstart.getD prev.1)) mx (plen + 1) (d, w) rest
    else
      (if plen ≥ window then
        [{ ptype := "weight", startDate := pstart, endDate := prev.1, value := mx,
           workouts := plen }]
       else []) ++ detectPlateausLoop window none w 0 (d, w) rest

/-- Embedding of `detect_plateaus` (`analysis/exercise.py`), which receives
    the already-filtered exercise rows; default `window` in the source is 3. -/
def detect_plateaus (exRows : List EnrichedRow) (window : ℕ) : List Plateau2 :=
  match groupMaxWeightByDate exRows with
  | [] => []
  | g0 :: grest =>
    if window ≤ (g0 :: grest).length then detectPlateausLoop window none g0.2 0 g0 grest
    else []

/-- Concrete rows for the C5 scenario: one exercise, five chronological
    workout dates with per-date max weights 100, 100, 100, 100, 105. -/
def c5row (d : ℕ) (w : ℚ) : EnrichedRow :=
  { date := d, workoutName := .rstr "Leg Day", exercise := .rstr "Squat",
    setOrder := some 1, weight := w, reps := 5, volume := w * 5, muscleGroup := "Legs",
    onerm := w, restDaysAfter := none, workoutId := "", isWeightPr := false,
    isRepsPr := false, isVolumePr := false, is1rmPr := false, isAnyPr := false }

def c5Rows : List EnrichedRow :=
  [c5row 1 100, c5row 2 100, c5row 3 100, c5row 4 100, c5row 5 105]

/-- C5 counterexample: on the scenario data with window 3, the
    `detect_plateaus` analyzer (`analysis/exercise.py`, the copy whose default
    window is 3) reports the plateau with workout count 3, not 4: its counter
    starts at 0 and counts only the dates after the first one of the run. -/
theorem C5_counterexample :
    detect_plateaus c5Rows 3 =
      [{ ptype := "weight", startDate := some 1, endDate := 4, value := 100, workouts := 3 }] ∧
    (detect_plateaus c5Rows 3).map (·.workouts) ≠ [4] := by
  constructor
  · norm_num [detect_plateaus, detectPlateausLoop, groupMaxWeightByDate, sortedDatesOf,
      qMaxList, c5Rows, c5row, List.mergeSort, List.merge, List.filter_cons, List.filter_nil,
      List.dedup]
  · norm_num [detect_plateaus, detectPlateausLoop, groupMaxWeightByDate, sortedDatesOf,
      qMaxList, c5Rows, c5row, List.mergeSort, List.merge, List.filter_cons, List.filter_nil,
      List.dedup]

/-- C5 (amended): with window 3 on per-date max weights 100,100,100,100,105
    over five chronological dates, both analyzers report exactly one plateau
    spanning the first four workout dates at value 100; `identify_plateaus`
    reports duration 4, while `detect_plateaus` reports workout count 3. -/
theorem C5_plateau_scenario_amended :
    identify_plateaus c5Rows (.rstr "Squat") 3 =
      [{ startDate := some 1, endDate := 4, duration := 4, weight := 100 }] ∧
    detect_plateaus c5Rows 3 =
      [{ ptype := "weight", startDate := some 1, endDate := 4, value := 100, workouts := 3 }] := by
  constructor
  · norm_num [identify_plateaus, identifyPlateausLoop, groupMaxWeightByDate, sortedDatesOf,
      qMaxList, c5Rows, c5row, List.mergeSort, List.merge, List.filter_cons, List.filter_nil,
      List.dedup]
  · norm_num [detect_plateaus, detectPlateausLoop, groupMaxWeightByDate, sortedDatesOf,
      qMaxList, c5Rows, c5row, List.mergeSort, List.merge, List.filter_cons, List.filter_nil,
      List.dedup]

/-! ### Progression analyzers

`calculate_progression_metrics` (`data/processor.py`) buckets rows by a
calendar period column (YearWeek / YearMonth / Year) and
`analyze_exercise_progression` (`analysis/exercise.py`) buckets by date.
The strftime period keys ("YYYY-WW", "YYYY-MM", integer year) sort
chronologically; they are modelled as numeric period indices that are
monotone functions of the absolute day number, which preserves exactly what
the analyzers use: equality of keys and their sort order.
-/

inductive Period where
  | week : Period
  | month : Period
  | year : Period

/-- Model of the YearWeek / YearMonth / Year column selected by `period`. -/
def periodKeyOf : Period → EnrichedRow → ℕ
  | .week => fun r => r.date / 7
  | .month => fun r => r.date / 31
  | .year => fun r => r.date / 372

/-- Mean of a (nonempty) pandas group. -/
def qMeanList (l : List ℚ) : ℚ := l.sum / l.length

/-- Sorted distinct period keys (pandas `groupby` key order). -/
def sortedKeysOf (f : EnrichedRow → ℕ) (rows : List EnrichedRow) : List ℕ :=
  ((rows.map f).dedup).mergeSort (fun a b => a ≤ b)

/-- One row of the aggregated progression frame. -/
structure PRow where
  key : ℕ
  mweight : ℚ
  mreps : ℚ
  svolume : ℚ
  monerm : ℚ
deriving DecidableEq, Inhabited

/-- Single-exercise path: per period, max weight, max reps, total volume,
    max 1RM. -/
def aggByKey (f : EnrichedRow → ℕ) (rows : List EnrichedRow) : List PRow :=
  (sortedKeysOf f rows).map (fun k =>
    let sub := rows.filter (fun r => f r == k)
    { key := k, mweight := qMaxList (sub.map (·.weight)),
      mreps := qMaxList (sub.map (·.reps)),
      svolume := (sub.map (·.volume)).sum,
      monerm := qMaxList (sub.map (·.onerm)) })

/-- Muscle-group / whole-dataset path: aggregate per (period, exercise)
    first, then average the per-exercise maxima (and total the volume)
    within each period. -/
def aggAllByKey (f : EnrichedRow → ℕ) (rows : List EnrichedRow) : List PRow :=
  (sortedKeysOf f rows).map (fun k =>
    let sub := rows.filter (fun r => f r == k)
    let perEx := ((sub.map (·.exercise)).dedup).map (fun e =>
      let sub2 := sub.filter (fun r => r.exercise == e)
      ({ key := k, mweight := qMaxList (sub2.map (·.weight)),
         mreps := qMaxList (sub2.map (·.reps)),
         svolume := (sub2.map (·.volume)).sum,
         monerm := qMaxList (sub2.map (·.onerm)) } : PRow))
    { key := k, mweight := qMeanList (perEx.map (·.mweight)),
      mreps := qMeanList (perEx.map (·.mreps)),
      svolume := (perEx.map (·.svolume)).sum,
      monerm := qMeanList (perEx.map (·.monerm)) })

/-- Trailing rolling mean over 3 periods with `min_periods=1`. -/
def rolling3 (l : List ℚ) : List ℚ :=
  (List.range l.length).map (fun i => qMeanList ((l.take (i + 1)).drop (i + 1 - 3)))

/-- The percent-change computation of `calculate_progression_metrics`:
    `(last-first)/first*100` when `first > 0`, else `0` if `last == 0` and
    `100` otherwise. -/
def pctChangeProc (first last : ℚ) : ℚ :=
  if 0 < first then (last - first) / first * 100
  else if last = 0 then 0 else 100

/-- Output of `calculate_progression_metrics`: the aggregated frame plus the
    rolling-average columns and the change columns (`[0]*(n-1) ++ [value]`);
    the Python code adds those columns only when more than one period exists,
    modelled by empty lists otherwise. -/
structure ProgOut where
  rows : List PRow
  rollWeight : List ℚ
  rollVolume : List ℚ
  rollOnerm : List ℚ
  changeWeight : List ℚ
  changeReps : List ℚ
  changeVolume : List ℚ
  changeOnerm : List ℚ
deriving DecidableEq

/-- Embedding of `calculate_progression_metrics` (`data/processor.py`). -/
def calculate_progression_metrics (rows : List EnrichedRow) (exerciseNm : Option RawCell)
    (muscleGrp : Option String) (period : Period) : Option ProgOut :=
  let filtered : List EnrichedRow :=
    match exerciseNm with
    | some e => rows.filter (fun r => r.exercise == e)
    | none =>
      match muscleGrp with
      | some m => rows.filter (fun r => r.muscleGroup == m)
      | none => rows
  if filtered.isEmpty then none
  else
    let f := periodKeyOf period
    let prog : List PRow :=
      match exerciseNm with
      | some _ => aggByKey f filtered
      | none => aggAllByKey f filtered
    if 1 < prog.length then
      some { rows := prog,
             rollWeight := rolling3 (prog.map (·.mweight)),
             rollVolume := rolling3 (prog.map (·.svolume)),
             rollOnerm := rolling3 (prog.map (·.monerm)),
             changeWeight :=
               List.replicate (prog.length - 1) 0 ++
                 [pctChangeProc prog.headI.mweight prog.getLastI.mweight],
             changeReps :=
               List.replicate (prog.length - 1) 0 ++
                 [pctChangeProc prog.headI.mreps prog.getLastI.mreps],
             changeVolume :=
               List.replicate (prog.length - 1) 0 ++
                 [pctChangeProc prog.headI.svolume prog.getLastI.svolume],
             changeOnerm :=
               List.replicate (prog.length - 1) 0 ++
                 [pctChangeProc prog.headI.monerm prog.getLastI.monerm] }
    else
      some { rows := prog, rollWeight := [], rollVolume := [], rollOnerm := [],
             changeWeight := [], changeReps := [], changeVolume := [], changeOnerm := [] }

/-- One row of the per-date aggregation used by `analyze_exercise_progression`
    (max weight, max reps, total volume, max 1RM per workout date). -/
structure GRow where
  gdate : ℕ
  gweight : ℚ
  greps : ℚ
  gvolume : ℚ
  gonerm : ℚ
deriving DecidableEq, Inhabited

def groupByDateAgg (rows : List EnrichedRow) : List GRow :=
  (sortedDatesOf rows).map (fun d =>
    let sub := rows.filter (fun r => r.date == d)
    { gdate := d, gweight := qMaxList (sub.map (·.weight)),
      greps := qMaxList (sub.map (·.reps)),
      gvolume := (sub.map (·.volume)).sum,
      gonerm := qMaxList (sub.map (·.onerm)) })

/-- The percent-change computation of `analyze_exercise_progression` (and
    `find_most_improved_exercises`): `(last-first)/first*100` when
    `first > 0`, else `0`. -/
def pctChangeEx (first last : ℚ) : ℚ :=
  if 0 < first then (last - first) / first * 100 else 0

/-- Date of the first grouped row attaining the maximum of a metric
    (pandas `idxmax`: first occurrence on ties). -/
def argmaxDate (g : List GRow) (f : GRow → ℚ) : ℕ :=
  match g with
  | [] => 0
  | x :: xs => (xs.foldl (fun best r => if f best < f r then r else best) x).gdate

/-- Result record of `analyze_exercise_progression`; dictionary entries the
    Python code adds only when more than one workout date exists are
    `Option`-valued. -/
structure ExProgression where
  dates : List ℕ
  weights : List ℚ
  repsList : List ℚ
  volumes : List ℚ
  oneRm : List ℚ
  firstWorkout : Option GRow
  lastWorkout : Option GRow
  weightChangePct : Option ℚ
  repsChangePct : Option ℚ
  volumeChangePct : Option ℚ
  oneRmChangePct : Option ℚ
  avgWeightChangePerWorkout : Option ℚ
  avgVolumeChangePerWorkout : Option ℚ
  weightPr : ℚ
  repsPr : ℚ
  volumePr : ℚ
  oneRmPr : ℚ
  weightPrDate : ℕ
  repsPrDate : ℕ
  volumePrDate : ℕ
  oneRmPrDate : ℕ
  plateaus : List Plateau2
deriving DecidableEq

/-- Embedding of `analyze_exercise_progression` (`analysis/exercise.py`). -/
def analyze_exercise_progression (rows : List EnrichedRow) (e : RawCell) :
    Option ExProgression :=
  let exRows : List EnrichedRow := rows.filter (fun r => r.exercise == e)
  if exRows.isEmpty then none
  else
    let g : List GRow := groupByDateAgg exRows
    some { dates := g.map (·.gdate), weights := g.map (·.gweight),
           repsList := g.map (·.greps), volumes := g.map (·.gvolume),
           oneRm := g.map (·.gonerm),
           firstWorkout := if 1 < g.length then some g.headI else none,
           lastWorkout := if 1 < g.length then some g.getLastI else none,
           weightChangePct :=
             if 1 < g.length then some (pctChangeEx g.headI.gweight g.getLastI.gweight)
             else none,
           repsChangePct :=
             if 1 < g.length then some (pctChangeEx g.headI.greps g.getLastI.greps)
             else none,
           volumeChangePct :=
             if 1 < g.length then some (pctChangeEx g.headI.gvolume g.getLastI.gvolume)
             else none,
           oneRmChangePct :=
             if 1 < g.length then some (pctChangeEx g.headI.gonerm g.getLastI.gonerm)
             else none,
           avgWeightChangePerWorkout :=
             if 1 < g.length then
               some ((g.getLastI.gweight - g.headI.gweight) / ((g.length : ℚ) - 1))
             else none,
           avgVolumeChangePerWorkout :=
             if 1 < g.length then
               some ((g.getLastI.gvolume - g.headI.gvolume) / ((g.length : ℚ) - 1))
             else none,
           weightPr := qMaxList (g.map (·.gweight)),
           repsPr := qMaxList (g.map (·.greps)),
           volumePr := qMaxList (g.map (·.gvolume)),
           oneRmPr := qMaxList (g.map (·.gonerm)),
           weightPrDate := argmaxDate g (·.gweight),
           repsPrDate := argmaxDate g (·.greps),
           volumePrDate := argmaxDate g (·.gvolume),
           oneRmPrDate := argmaxDate g (·.gonerm),
           plateaus := detect_plateaus exRows 3 }

/-- Concrete rows for C1: one exercise, two periods, first period weight 0. -/
def c1row (d : ℕ) (w : ℚ) : EnrichedRow :=
  { date := d, workoutName := .rstr "Arms Day", exercise := .rstr "Curl",
    setOrder := some 1, weight := w, reps := 1, volume := w, muscleGroup := "Arms",
    onerm := w, restDaysAfter := none, workoutId := "", isWeightPr := false,
    isRepsPr := false, isVolumePr := false, is1rmPr := false, isAnyPr := false }

def c1Rows : List EnrichedRow := [c1row 10 0, c1row 40 50]

/-- C1 counterexample: with a first-period max weight of 0 and a nonzero
    last-period value, `calculate_progression_metrics` reports a change of
    100, not 0. -/
theorem C1_counterexample :
    (calculate_progression_metrics c1Rows (some (.rstr "Curl")) none Period.month).map
      (·.changeWeight) = some [0, 100] ∧ (100 : ℚ) ≠ 0 := by
  constructor
  · norm_num [calculate_progression_metrics, aggByKey, sortedKeysOf, periodKeyOf, qMaxList,
      pctChangeProc, c1Rows, c1row, List.mergeSort, List.merge, List.filter_cons,
      List.filter_nil, List.dedup, List.isEmpty, List.headI, List.getLastI, List.getLast]
  · norm_num

/-- C1 (amended): both progression analyzers compute first-to-last percent
    change without ever dividing by zero, as `(last-first)/first*100` when
    the first observation is positive; when the first observation is 0,
    `analyze_exercise_progression` reports 0, while
    `calculate_progression_metrics` reports 0 only if the last observation is
    also 0 and reports 100 otherwise. -/
theorem C1_percent_change_amended :
    (∀ (rows : List EnrichedRow) (e : RawCell) (period : Period) (prog : ProgOut),
      calculate_progression_metrics rows (some e) none period = some prog →
      1 < prog.rows.length →
      prog.changeWeight =
        List.replicate (prog.rows.length - 1) 0 ++
          [pctChangeProc prog.rows.headI.mweight prog.rows.getLastI.mweight] ∧
      prog.changeReps =
        List.replicate (prog.rows.length - 1) 0 ++
          [pctChangeProc prog.rows.headI.mreps prog.rows.getLastI.mreps] ∧
      prog.changeVolume =
        List.replicate (prog.rows.length - 1) 0 ++
          [pctChangeProc prog.rows.headI.svolume prog.rows.getLastI.svolume] ∧
      prog.changeOnerm =
        List.replicate (prog.rows.length - 1) 0 ++
          [pctChangeProc prog.rows.headI.monerm prog.rows.getLastI.monerm]) ∧
    (∀ first last : ℚ, 0 < first →
      pctChangeProc first last = (last - first) / first * 100) ∧
    pctChangeProc 0 0 = 0 ∧
    (∀ last : ℚ, last ≠ 0 → pctChangeProc 0 last = 100) ∧
    (∀ (rows : List EnrichedRow) (e : RawCell) (res : ExProgression),
      analyze_exercise_progression rows e = some res →
      1 < (groupByDateAgg (rows.filter (fun r => r.exercise == e))).length →
      res.weightChangePct =
        some (pctChangeEx (groupByDateAgg (rows.filter (fun r => r.exercise == e))).headI.gweight
          (groupByDateAgg (rows.filter (fun r => r.exercise == e))).getLastI.gweight) ∧
      res.repsChangePct =
        some (pctChangeEx (groupByDateAgg (rows.filter (fun r => r.exercise == e))).headI.greps
          (groupByDateAgg (rows.filter (fun r => r.exercise == e))).getLastI.greps) ∧
      res.volumeChangePct =
        some (pctChangeEx (groupByDateAgg (rows.filter (fun r => r.exercise == e))).headI.gvolume
          (groupByDateAgg (rows.filter (fun r => r.exercise == e))).getLastI.gvolume) ∧
      res.oneRmChangePct =
        some (pctChangeEx (groupByDateAgg (rows.filter (fun r => r.exercise == e))).headI.gonerm
          (groupByDateAgg (rows.filter (fun r => r.exercise == e))).getLastI.gonerm)) ∧
    (∀ first last : ℚ, 0 < first →
      pctChangeEx first last = (last - first) / first * 100) ∧
    (∀ first last : ℚ, first ≤ 0 → pctChangeEx first last = 0) := by
  refine ⟨?_, ?_, ?_, ?_, ?_, ?_, ?_⟩
  · intro rows e period prog hp hlen
    simp only [calculate_progression_metrics] at hp
    split at hp
    · exact absurd hp (by simp)
    · split at hp
      · rw [Option.some_inj] at hp
        subst hp
        exact ⟨rfl, rfl, rfl, rfl⟩
      · rw [Option.some_inj] at hp
        subst hp
        next h => exact absurd hlen h
  · intro first last h
    rw [pctChangeProc, if_pos h]
  · rfl
  · intro last h
    rw [pctChangeProc, if_neg (lt_irrefl 0), if_neg h]
  · intro rows e res hp hlen
    simp only [analyze_exercise_progression] at hp
    split at hp
    · exact absurd hp (by simp)
    · rw [Option.some_inj] at hp
      subst hp
      refine ⟨?_, ?_, ?_, ?_⟩ <;> simp only [if_pos hlen]
  · intro first last h
    rw [pctChangeEx, if_pos h]
  · intro first last h
    rw [pctChangeEx, if_neg (not_lt.2 h)]

/-- The concrete progression frame `calculate_progression_metrics` produces
    on `c1Rows` (checked by the witness below). -/
def c1Prog : ProgOut :=
  { rows := [⟨0, 0, 1, 0, 0⟩, ⟨1, 50, 1, 50, 50⟩],
    rollWeight := [0, 25], rollVolume := [0, 25], rollOnerm := [0, 25],
    changeWeight := [0, 100], changeReps := [0, 0], changeVolume := [0, 100],
    changeOnerm := [0, 100] }

/-- The concrete result `analyze_exercise_progression` produces on `c1Rows`. -/
def c1Ex : ExProgression :=
  { dates := [10, 40], weights := [0, 50], repsList := [1, 1], volumes := [0, 50],
    oneRm := [0, 50],
    firstWorkout := some ⟨10, 0, 1, 0, 0⟩, lastWorkout := some ⟨40, 50, 1, 50, 50⟩,
    weightChangePct := some 0, repsChangePct := some 0, volumeChangePct := some 0,
    oneRmChangePct := some 0,
    avgWeightChangePerWorkout := some 50, avgVolumeChangePerWorkout := some 50,
    weightPr := 50, repsPr := 1, volumePr := 50, oneRmPr := 50,
    weightPrDate := 40, repsPrDate := 10, volumePrDate := 40, oneRmPrDate := 40,
    plateaus := [] }

/-- C1 witness: every clause of the amended statement at concrete inputs. -/
theorem C1_percent_change_amended_witness :
    (c1Prog.changeWeight =
      List.replicate (c1Prog.rows.length - 1) 0 ++
        [pctChangeProc c1Prog.rows.headI.mweight c1Prog.rows.getLastI.mweight] ∧
     c1Prog.changeReps =
      List.replicate (c1Prog.rows.length - 1) 0 ++
        [pctChangeProc c1Prog.rows.headI.mreps c1Prog.rows.getLastI.mreps] ∧
     c1Prog.changeVolume =
      List.replicate (c1Prog.rows.length - 1) 0 ++
        [pctChangeProc c1Prog.rows.headI.svolume c1Prog.rows.getLastI.svolume] ∧
     c1Prog.changeOnerm =
      List.replicate (c1Prog.rows.length - 1) 0 ++
        [pctChangeProc c1Prog.rows.headI.monerm c1Prog.rows.getLastI.monerm]) ∧
    pctChangeProc 5 7 = (7 - 5) / 5 * 100 ∧
    pctChangeProc 0 0 = 0 ∧
    pctChangeProc 0 50 = 100 ∧
    (c1Ex.weightChangePct =
      some (pctChangeEx
        (groupByDateAgg (c1Rows.filter (fun r => r.exercise == RawCell.rstr "Curl"))).headI.gweight
        (groupByDateAgg (c1Rows.filter (fun r => r.exercise == RawCell.rstr "Curl"))).getLastI.gweight) ∧
     c1Ex.repsChangePct =
      some (pctChangeEx
        (groupByDateAgg (c1Rows.filter (fun r => r.exercise == RawCell.rstr "Curl"))).headI.greps
        (groupByDateAgg (c1Rows.filter (fun r => r.exercise == RawCell.rstr "Curl"))).getLastI.greps) ∧
     c1Ex.volumeChangePct =
      some (pctChangeEx
        (groupByDateAgg (c1Rows.filter (fun r => r.exercise == RawCell.rstr "Curl"))).headI.gvolume
        (groupByDateAgg (c1Rows.filter (fun r => r.exercise == RawCell.rstr "Curl"))).getLastI.gvolume) ∧
     c1Ex.oneRmChangePct =
      some (pctChangeEx
        (groupByDateAgg (c1Rows.filter (fun r => r.exercise == RawCell.rstr "Curl"))).headI.gonerm
        (groupByDateAgg (c1Rows.filter (fun r => r.exercise == RawCell.rstr "Curl"))).getLastI.gonerm)) ∧
    pctChangeEx 5 7 = (7 - 5) / 5 * 100 ∧
    pctChangeEx 0 50 = 0 :=
  ⟨C1_percent_change_amended.1 c1Rows (.rstr "Curl") Period.month c1Prog
      (by norm_num [calculate_progression_metrics, aggByKey, sortedKeysOf, periodKeyOf,
        qMaxList, pctChangeProc, c1Rows, c1row, c1Prog, rolling3, qMeanList, List.mergeSort,
        List.merge, List.filter_cons, List.filter_nil, List.dedup, List.isEmpty, List.headI,
        List.getLastI, List.getLast, List.range_succ, List.range_zero])
      (by norm_num [c1Prog]),
   C1_percent_change_amended.2.1 5 7 (by norm_num),
   C1_percent_change_amended.2.2.1,
   C1_percent_change_amended.2.2.2.1 50 (by norm_num),
   C1_percent_change_amended.2.2.2.2.1 c1Rows (.rstr "Curl") c1Ex
      (by norm_num [analyze_exercise_progression, groupByDateAgg, sortedDatesOf, qMaxList,
        pctChangeEx, argmaxDate, detect_plateaus, groupMaxWeightByDate, c1Rows, c1row, c1Ex,
        List.mergeSort, List.merge, List.filter_cons, List.filter_nil, List.dedup,
        List.isEmpty, List.headI, List.getLastI, List.getLast])
      (by norm_num [groupByDateAgg, sortedDatesOf, c1Rows, c1row, List.mergeSort, List.merge,
        List.filter_cons, List.filter_nil, List.dedup]),
   C1_percent_change_amended.2.2.2.2.2.1 5 7 (by norm_num),
   C1_percent_change_amended.2.2.2.2.2.2 0 50 (by norm_num)⟩

/-! ### Workout balance analyzer (`data/processor.py`, `calculate_workout_balance`)

Python represents an undefined ratio as `float('inf')`; `QInf` models that
sentinel, with the comparison helpers mirroring IEEE semantics for
`inf > c` (always true) and `inf < c` (always false) against finite
thresholds.
-/

inductive QInf where
  | fin : ℚ → QInf
  | inf : QInf
deriving DecidableEq

def qinfGtC (x : QInf) (c : ℚ) : Bool :=
  match x with
  | .inf => true
  | .fin q => decide (c < q)

def qinfLtC (x : QInf) (c : ℚ) : Bool :=
  match x with
  | .inf => false
  | .fin q => decide (q < c)

structure Recommendation where
  issue : String
  description : String
  suggestion : String
  severity : String
deriving DecidableEq

structure BalanceOut where
  musclePercentage : List (String × ℚ)
  pushPullRatio : QInf
  upperLowerRatio : QInf
  coreRatio : QInf
  recommendations : List Recommendation
  isBalanced : Bool
deriving DecidableEq

/-- `muscle_volume.get(g, 0)`: total volume of a muscle group (0 if absent). -/
def muscleVolume (rows : List EnrichedRow) (g : String) : ℚ :=
  ((rows.filter (fun r => r.muscleGroup == g)).map (·.volume)).sum

/-- Muscle groups present, in pandas `groupby` (sorted) key order. -/
def muscleGroupsOf (rows : List EnrichedRow) : List String :=
  ((rows.map (·.muscleGroup)).dedup).mergeSort strLe

/-- Embedding of `calculate_workout_balance`.  The float literals 0.6, 0.4,
    1.3, 1.6, 0.7, 0.4, 2.0, 0.5, 3.0, 0.3 are the corresponding rationals. -/
def calculate_workout_balance (rows : List EnrichedRow) : BalanceOut :=
  let totalVolume : ℚ := (rows.map (·.volume)).sum
  let musclePct : List (String × ℚ) :=
    if 0 < totalVolume then
      (muscleGroupsOf rows).map (fun g => (g, muscleVolume rows g / totalVolume * 100))
    else []
  let push : ℚ := muscleVolume rows "Chest" + muscleVolume rows "Shoulders" +
    muscleVolume rows "Arms" * (6 / 10)
  let pull : ℚ := muscleVolume rows "Back" + muscleVolume rows "Arms" * (4 / 10)
  let ppr : QInf := if 0 < pull then .fin (push / pull) else .inf
  let upper : ℚ := push + pull
  let lower : ℚ := muscleVolume rows "Legs"
  let ulr : QInf := if 0 < lower then .fin (upper / lower) else .inf
  let core : ℚ := muscleVolume rows "Core"
  let cr : QInf := if 0 < totalVolume - core then .fin (core / (totalVolume - core)) else .inf
  let recs1 : List Recommendation :=
    if qinfGtC ppr (13 / 10) then
      [{ issue := "Push/Pull Imbalance",
         description := "Your push volume is significantly higher than your pull volume.",
         suggestion := "Consider adding more back exercises to balance your routine.",
         severity := if qinfLtC ppr (16 / 10) then "moderate" else "high" }]
    else if qinfLtC ppr (7 / 10) then
      [{ issue := "Pull/Push Imbalance",
         description := "Your pull volume is significantly higher than your push volume.",
         suggestion := "Consider adding more chest and shoulder exercises to balance your routine.",
         severity := if qinfGtC ppr (4 / 10) then "moderate" else "high" }]
    else []
  let recs2 : List Recommendation :=
    if qinfGtC ulr 2 then
      [{ issue := "Upper/Lower Imbalance",
         description := "Your upper body volume is much higher than your lower body volume.",
         suggestion := "Consider adding more leg exercises to achieve better balance.",
         severity := if qinfLtC ulr 3 then "moderate" else "high" }]
    else if qinfLtC ulr (1 / 2) then
      [{ issue := "Lower/Upper Imbalance",
         description := "Your lower body volume is much higher than your upper body volume.",
         suggestion := "Consider adding more upper body exercises to achieve better balance.",
         severity := if qinfGtC ulr (3 / 10) then "moderate" else "high" }]
    else []
  let recs3 : List Recommendation :=
    match musclePct.find? (fun p => p.1 == "Core") with
    | some p =>
      if p.2 < 5 then
        [{ issue := "Low Core Training",
           description := "Your core training volume is quite low.",
           suggestion := "Consider adding more dedicated core exercises for overall stability and strength.",
           severity := "low" }]
      else []
    | none => []
  let recs4 : List Recommendation :=
    musclePct.filterMap (fun p =>
      if (p.1 == "Shoulders" || p.1 == "Back" || p.1 == "Legs") && decide (p.2 < 10) then
        some { issue := "Low " ++ p.1 ++ " Volume",
               description := "Your " ++ lowerStr p.1 ++
                 " training volume appears to be low relative to other muscle groups.",
               suggestion := "Consider adding more " ++ lowerStr p.1 ++
                 " exercises for balanced development.",
               severity := "moderate" }
      else none)
  let recommendations := recs1 ++ recs2 ++ recs3 ++ recs4
  { musclePercentage := musclePct, pushPullRatio := ppr, upperLowerRatio := ulr,
    coreRatio := cr, recommendations := recommendations,
    isBalanced := recommendations.isEmpty }

/-- C10: whenever the pull volume (Back + 0.4 * Arms) is 0 — in particular on
    the empty dataset — the balance analyzer reports the infinite sentinel as
    push/pull ratio, its first recommendation is the push-dominant warning
    with severity "high", and the result is not balanced. -/
theorem C10_balance_zero_pull (rows : List EnrichedRow)
    (h : muscleVolume rows "Back" + muscleVolume rows "Arms" * (4 / 10) = 0) :
    (calculate_workout_balance rows).pushPullRatio = QInf.inf ∧
    (calculate_workout_balance rows).recommendations.head? = some
      { issue := "Push/Pull Imbalance",
        description := "Your push volume is significantly higher than your pull volume.",
        suggestion := "Consider adding more back exercises to balance your routine.",
        severity := "high" } ∧
    (calculate_workout_balance rows).isBalanced = false := by
  simp only [calculate_workout_balance, h, lt_irrefl, if_false, qinfGtC, qinfLtC]
  simp

/-- C10 witness: the completely empty dataset. -/
theorem C10_balance_zero_pull_witness :
    (calculate_workout_balance []).pushPullRatio = QInf.inf ∧
    (calculate_workout_balance []).recommendations.head? = some
      { issue := "Push/Pull Imbalance",
        description := "Your push volume is significantly higher than your pull volume.",
        suggestion := "Consider adding more back exercises to balance your routine.",
        severity := "high" } ∧
    (calculate_workout_balance []).isBalanced = false :=
  C10_balance_zero_pull [] (by norm_num [muscleVolume])

/-! ### Ingestion (`data/parser.py`, `parse_strong_csv`)

The raw CSV is modelled as a column-name list plus rows of cells.  A cell is
numeric, string, date-like, or empty/unparseable; `pd.to_numeric(...,
errors='coerce').fillna(0)` maps non-numeric cells to 0, and
`pd.to_datetime` succeeds exactly on date-like cells.  The Python error
message for a date failure carries the exception text after a fixed prefix;
the model keeps the prefix.  The parser's `_id` column is assigned as the
1-based row number (the source does the same whenever the input has no
`_id` column).
-/

def REQUIRED_COLUMNS : List String :=
  ["Date", "Workout Name", "Exercise Name", "Set Order", "Weight (kg)", "Reps"]

def missingColumns (t₁ : List String) : List String :=
  REQUIRED_COLUMNS.filter (fun c => !(t₁.contains c))

structure RawTable where
  cols : List String
  cells : List (List RawCell)
deriving DecidableEq

/-- Cell of a row under a named column; a structurally absent cell reads as
    empty. -/
def cellAt (t : RawTable) (row : List RawCell) (name : String) : RawCell :=
  match t.cols.findIdx? (fun c => c == name) with
  | some j => row.getD j .rempty
  | none => .rempty

/-- `pd.to_numeric(col, errors='coerce').fillna(0)` on one cell. -/
def toNumericCoerce (c : RawCell) : ℚ :=
  match c with
  | .rnum q => q
  | _ => 0

/-- `pd.to_datetime` on one cell: succeeds exactly on date-like values. -/
def parseDateCell (c : RawCell) : Option ℕ :=
  match c with
  | .rdate d => some d
  | _ => none

structure ParsedRow where
  date : ℕ
  workoutName : RawCell
  exerciseName : RawCell
  setOrder : Option ℚ
  weight : ℚ
  reps : ℚ
  rpe : Option ℚ
  distance : Option ℚ
  seconds : Option ℚ
  volume : ℚ
  rid : ℕ
deriving DecidableEq

/-- Embedding of `parse_strong_csv`. -/
def parse_strong_csv (t : RawTable) : Except String (List ParsedRow) :=
  if (missingColumns t.cols).isEmpty then
    if (t.cells.map (fun row => parseDateCell (cellAt t row "Date"))).all (·.isSome) then
      .ok (t.cells.enum.map (fun p =>
        { date := (parseDateCell (cellAt t p.2 "Date")).getD 0,
          workoutName := cellAt t p.2 "Workout Name",
          exerciseName := cellAt t p.2 "Exercise Name",
          setOrder :=
            match cellAt t p.2 "Set Order" with
            | .rnum q => some q
            | _ => none,
          weight := toNumericCoerce (cellAt t p.2 "Weight (kg)"),
          reps := toNumericCoerce (cellAt t p.2 "Reps"),
          rpe := if t.cols.contains "RPE" then
              some (toNumericCoerce (cellAt t p.2 "RPE")) else none,
          distance := if t.cols.contains "Distance (meters)" then
              some (toNumericCoerce (cellAt t p.2 "Distance (meters)")) else none,
          seconds := if t.cols.contains "Seconds" then
              some (toNumericCoerce (cellAt t p.2 "Seconds")) else none,
          volume := toNumericCoerce (cellAt t p.2 "Weight (kg)") *
            toNumericCoerce (cellAt t p.2 "Reps"),
          rid := p.1 + 1 }))
    else .error "Error parsing dates"
  else
    .error ("CSV is missing required columns: " ++
      String.intercalate ", " (missingColumns t.cols))

/-- C8: ingestion raises the descriptive missing-columns error iff a required
    column is structurally absent; given the columns, it raises the hard date
    error iff some Date cell cannot be parsed; otherwise it succeeds, with
    every weight/reps cell coerced through `toNumericCoerce`, which maps every
    non-numeric cell to 0 instead of failing. -/
theorem C8_ingestion_error_modes (t : RawTable) :
    (parse_strong_csv t =
        .error ("CSV is missing required columns: " ++
          String.intercalate ", " (missingColumns t.cols)) ↔
      missingColumns t.cols ≠ []) ∧
    (missingColumns t.cols = [] →
      (parse_strong_csv t = .error "Error parsing dates" ↔
        ∃ row ∈ t.cells, parseDateCell (cellAt t row "Date") = none)) ∧
    (missingColumns t.cols = [] →
      (∀ row ∈ t.cells, (parseDateCell (cellAt t row "Date")).isSome) →
      ∃ rows, parse_strong_csv t = .ok rows ∧ rows.length = t.cells.length ∧
        ∀ (i : ℕ) (row : List RawCell), t.cells[i]? = some row →
          ∃ pr, rows[i]? = some pr ∧
            pr.weight = toNumericCoerce (cellAt t row "Weight (kg)") ∧
            pr.reps = toNumericCoerce (cellAt t row "Reps") ∧
            pr.volume = pr.weight * pr.reps) ∧
    (∀ s, toNumericCoerce (.rstr s) = 0) ∧
    (∀ d, toNumericCoerce (.rdate d) = 0) ∧
    toNumericCoerce .rempty = 0 := by
  refine ⟨?_, ?_, ?_, fun s => rfl, fun d => rfl, rfl⟩
  · constructor
    · intro hp
      intro hmiss
      rw [parse_strong_csv, if_pos (by rw [hmiss]; rfl)] at hp
      split at hp
      · exact absurd hp (by simp)
      · rw [hmiss] at hp
        simp only [Except.error.injEq] at hp
        exact absurd hp (by decide)
    · intro hmiss
      rw [parse_strong_csv, if_neg ?_]
      intro hempty
      exact hmiss (List.isEmpty_iff.1 hempty)
  · intro hmiss
    rw [parse_strong_csv, if_pos (by rw [hmiss]; rfl)]
    by_cases hall : (t.cells.map (fun row => parseDateCell (cellAt t row "Date"))).all (·.isSome)
    · rw [if_pos hall]
      constructor
      · intro hp
        exact absurd hp (by simp)
      · rintro ⟨row, hrow, hnone⟩
        rw [List.all_eq_true] at hall
        have := hall _ (List.mem_map.2 ⟨row, hrow, rfl⟩)
        rw [hnone] at this
        exact absurd this (by decide)
    · rw [if_neg hall]
      constructor
      · intro _
        rw [List.all_eq_true] at hall
        push_neg at hall
        rcases hall with ⟨x, hx, hxf⟩
        rcases List.mem_map.1 hx with ⟨row, hrow, hxeq⟩
        refine ⟨row, hrow, ?_⟩
        subst hxeq
        cases hcell : parseDateCell (cellAt t row "Date") with
        | none => rfl
        | some d => rw [hcell] at hxf; exact absurd rfl hxf
      · intro _
        rfl
  · intro hmiss hall
    rw [parse_strong_csv, if_pos (by rw [hmiss]; rfl), if_pos ?hall2]
    case hall2 =>
      rw [List.all_eq_true]
      intro x hx
      rcases List.mem_map.1 hx with ⟨row, hrow, hxeq⟩
      rw [← hxeq]
      exact hall row hrow
    refine ⟨_, rfl, by simp, ?_⟩
    intro i row hrow
    have henum : t.cells.enum[i]? = some (i, row) := by
      rw [List.getElem?_enum, hrow]
      rfl
    refine ⟨_, by rw [List.getElem?_map, henum]; rfl, rfl, rfl, rfl⟩

def c8BadCols : RawTable := { cols := ["Date", "Reps"], cells := [] }

def c8Good : RawTable :=
  { cols := REQUIRED_COLUMNS,
    cells := [[.rdate 5, .rstr "Push Day", .rstr "Bench Press", .rnum 1, .rstr "oops", .rnum 8]] }

/-- C8 witness: a table with missing required columns yields the descriptive
    error; a complete table whose weight cell is a non-numeric string parses
    successfully with the weight coerced to 0. -/
theorem C8_ingestion_error_modes_witness :
    parse_strong_csv c8BadCols =
      .error ("CSV is missing required columns: " ++
        String.intercalate ", " (missingColumns c8BadCols.cols)) ∧
    (∃ rows, parse_strong_csv c8Good = .ok rows ∧ rows.length = c8Good.cells.length ∧
      ∀ (i : ℕ) (row : List RawCell), c8Good.cells[i]? = some row →
        ∃ pr, rows[i]? = some pr ∧
          pr.weight = toNumericCoerce (cellAt c8Good row "Weight (kg)") ∧
          pr.reps = toNumericCoerce (cellAt c8Good row "Reps") ∧
          pr.volume = pr.weight * pr.reps) :=
  ⟨(C8_ingestion_error_modes c8BadCols).1.mpr (by decide),
   (C8_ingestion_error_modes c8Good).2.2.1 (by decide) (by decide)⟩

/-! ### Enrichment (`data/processor.py`, `preprocess_data`)

The model covers the logic the analysed claims depend on: muscle-group
classification, the 1RM column, the Volume column handling, the set-order
recomputation, rest days, the PR flags, and the workout id.  Presentation
columns that are pure functions of `date` (Year, Month, MonthName, Day,
Weekday, Week, YearWeek, YearMonth) and the optional RPE/duration extras
(Difficulty, Density) add columns that none of the modelled fields read, and
are omitted.  The parser always emits a Volume column, so the source's
"compute Volume only when the column is absent" branch keeps the parser's
product on every pipeline input; the model keeps `r.volume` accordingly. -/

def cellToPyVal : RawCell → PyVal
  | .rstr s => .pstr s
  | .rempty => .pnone
  | .rnum _ => .pnonstr
  | .rdate _ => .pnonstr

def cellToStr : RawCell → String
  | .rstr s => s
  | _ => ""

def underscoreSpaces (s : String) : String :=
  String.intercalate "_" (s.splitOn " ")

/-- Embedding of `preprocess_data` over parsed rows. -/
def preprocess_data (rows : List ParsedRow) : List EnrichedRow :=
  let sameDE (a b : ParsedRow) : Bool := a.date == b.date && a.exerciseName == b.exerciseName
  let sameDWE (a b : ParsedRow) : Bool :=
    a.date == b.date && a.workoutName == b.workoutName && a.exerciseName == b.exerciseName
  let keepOrder : Bool := rows.enum.all (fun p =>
    p.2.setOrder == some ((((rows.take p.1).filter (fun s => sameDE s p.2)).length + 1 : ℕ) : ℚ))
  let workoutDates : List ℕ := ((rows.map (·.date)).dedup).mergeSort (fun a b => a ≤ b)
  let restAfter (d : ℕ) : Option ℤ :=
    if 1 < workoutDates.length then
      match workoutDates.find? (fun x => decide (d < x)) with
      | some nxt => some ((nxt : ℤ) - (d : ℤ) - 1)
      | none => none
    else none
  let base : List EnrichedRow := rows.enum.map (fun p =>
    { date := p.2.date,
      workoutName := p.2.workoutName,
      exercise := p.2.exerciseName,
      setOrder :=
        if keepOrder then p.2.setOrder
        else some ((((rows.take p.1).filter (fun s => sameDWE s p.2)).length + 1 : ℕ) : ℚ),
      weight := p.2.weight,
      reps := p.2.reps,
      volume := p.2.volume,
      muscleGroup := map_exercise_to_muscle_group (cellToPyVal p.2.exerciseName),
      onerm := calculate_1rm p.2.weight p.2.reps,
      restDaysAfter := restAfter p.2.date,
      workoutId := "",
      isWeightPr := false, isRepsPr := false, isVolumePr := false, is1rmPr := false,
      isAnyPr := false })
  let flagged := identify_personal_records base
  flagged.map (fun r =>
    { r with workoutId := toString r.date ++ "_" ++ underscoreSpaces (cellToStr r.workoutName) })

/-- The full ingestion/enrichment pipeline. -/
def pipeline (t : RawTable) : Except String (List EnrichedRow) :=
  (parse_strong_csv t).map preprocess_data

lemma identify_mem {rows : List EnrichedRow} {r : EnrichedRow}
    (hr : r ∈ identify_personal_records rows) :
    ∃ b ∈ rows, r.volume = b.volume ∧ r.weight = b.weight ∧ r.reps = b.reps := by
  rw [identify_personal_records] at hr
  rcases List.mem_map.1 hr with ⟨p, hp, hap⟩
  obtain ⟨i, b⟩ := p
  obtain ⟨hlt, hb⟩ := List.mem_enum hp
  refine ⟨b, ?_, ?_, ?_, ?_⟩
  · rw [hb]
    exact List.getElem_mem hlt
  · rw [← hap]
    rfl
  · rw [← hap]
    rfl
  · rw [← hap]
    rfl

lemma preprocess_mem {prs : List ParsedRow} {r : EnrichedRow}
    (hr : r ∈ preprocess_data prs) :
    ∃ pr ∈ prs, r.volume = pr.volume ∧ r.weight = pr.weight ∧ r.reps = pr.reps := by
  simp only [preprocess_data] at hr
  rcases List.mem_map.1 hr with ⟨r', hr', hg⟩
  rcases identify_mem hr' with ⟨b, hb, hv, hw, hreps⟩
  rcases List.mem_map.1 hb with ⟨p, hp, hbp⟩
  obtain ⟨i, pr⟩ := p
  obtain ⟨hlt, hpr⟩ := List.mem_enum hp
  refine ⟨pr, ?_, ?_, ?_, ?_⟩
  · rw [hpr]
    exact List.getElem_mem hlt
  · rw [← hg]
    show r'.volume = pr.volume
    rw [hv, ← hbp]
  · rw [← hg]
    show r'.weight = pr.weight
    rw [hw, ← hbp]
  · rw [← hg]
    show r'.reps = pr.reps
    rw [hreps, ← hbp]

/-- C2: every row of the enriched dataset produced by the pipeline has
    volume = weight * reps; the parser unconditionally recomputes the Volume
    column from the coerced weight and reps (`df['Volume'] = df['Weight
    (kg)'] * df['Reps']`), overwriting any pre-existing Volume column of the
    raw input, and enrichment carries that product through unchanged. -/
theorem C2_volume_invariant (t : RawTable) (erows : List EnrichedRow)
    (h : pipeline t = .ok erows) :
    ∀ r ∈ erows, r.volume = r.weight * r.reps := by
  rw [pipeline] at h
  cases hp : parse_strong_csv t with
  | error e =>
    rw [hp] at h
    exact absurd h (by simp [Except.map])
  | ok prs =>
    rw [hp] at h
    simp only [Except.map, Except.ok.injEq] at h
    have hpr : ∀ pr ∈ prs, pr.volume = pr.weight * pr.reps := by
      rw [parse_strong_csv] at hp
      split at hp
      · split at hp
        · simp only [Except.ok.injEq] at hp
          subst hp
          intro pr hmem
          rcases List.mem_map.1 hmem with ⟨p, _, hpf⟩
          rw [← hpf]
        · exact absurd hp (by simp)
      · exact absurd hp (by simp)
    subst h
    intro r hr
    rcases preprocess_mem hr with ⟨pr, hmem, hv, hw, hreps⟩
    rw [hv, hw, hreps]
    exact hpr pr hmem

/-- Concrete raw table for the C2 witness: the input carries a pre-existing
    `Volume` column with the bogus value 999 for a row whose weight is 2 and
    reps are 3. -/
def c2Table : RawTable :=
  { cols := REQUIRED_COLUMNS ++ ["Volume"],
    cells := [[.rdate 5, .rstr "Push Day", .rstr "Bench Press", .rnum 1, .rnum 2, .rnum 3,
               .rnum 999]] }

/-- C2 witness: the pipeline succeeds on `c2Table` and every enriched row
    satisfies the volume invariant despite the bogus input Volume column. -/
theorem C2_volume_invariant_witness :
    ∃ erows, pipeline c2Table = .ok erows ∧ ∀ r ∈ erows, r.volume = r.weight * r.reps := by
  cases hp : pipeline c2Table with
  | error e =>
    exfalso
    rw [pipeline] at hp
    cases hpp : parse_strong_csv c2Table with
    | error e2 =>
      rw [parse_strong_csv, if_pos (by decide), if_pos (by decide)] at hpp
      exact absurd hpp (by simp)
    | ok prs =>
      rw [hpp] at hp
      exact absurd hp (by simp [Except.map])
  | ok erows => exact ⟨erows, rfl, C2_volume_invariant c2Table erows hp⟩

/-! ### Records registry (`old_monolith/records_registry.py`)

The registry input rows carry the columns `update_from_dataframe` requires;
the module recomputes its own Volume and 1RM columns (the latter with its
own guard, different from `calculate_1rm`).  Dates are the `%Y-%m-%d`
strings the module groups and stores.  Python's `float()` is the identity
on the rational model; `int()` truncates toward zero; `f"{v:.1f}"` rounds
half-to-even to one decimal.  Python `dict`s are modelled as
insertion-ordered association lists; `set` iteration order (used only for
the per-date history loop) is unspecified in Python, and the history update
is order-insensitive, so first-occurrence order is used. -/

structure RegRow where
  rdateStr : String
  exName : String
  mgroup : String
  rweight : ℚ
  rreps : ℚ
deriving DecidableEq

/-- `df['Volume'] = df['Weight (kg)'] * df['Reps']` in `update_from_dataframe`. -/
def regVolume (r : RegRow) : ℚ := r.rweight * r.rreps

/-- The module's own 1RM lambda: Brzycki when `0 < reps < 37`, else 0. -/
def reg1rm (r : RegRow) : ℚ :=
  if 0 < r.rreps ∧ r.rreps < 37 then r.rweight * (36 / (37 - r.rreps)) else 0

/-- Python `int()`: truncation toward zero. -/
def pyInt (q : ℚ) : ℤ := q.num / q.den

/-- Round half to even at one decimal, then render: models `f"{v:.1f}"`. -/
def roundHalfEven (q : ℚ) : ℤ :=
  let f := Int.floor q
  let r := q - f
  if r < 1 / 2 then f
  else if 1 / 2 < r then f + 1
  else if f % 2 = 0 then f else f + 1

def fmt1 (q : ℚ) : String :=
  let n := roundHalfEven (q * 10)
  if n < 0 then "-" ++ toString ((-n) / 10) ++ "." ++ toString ((-n) % 10)
  else toString (n / 10) ++ "." ++ toString (n % 10)

/-- A stored record slot: value, date, and the accessory fields the various
    record kinds carry. -/
structure RecEntry where
  value : ℚ
  rdate : Option String
  accExercise : Option String
  accWeight : Option ℚ
  accReps : Option ℤ
deriving DecidableEq

def emptyEntry : RecEntry :=
  { value := 0, rdate := none, accExercise := none, accWeight := none, accReps := none }

structure ExerciseRecord where
  maxWeight : RecEntry
  maxReps : RecEntry
  maxVolumeSet : RecEntry
  maxVolumeWorkout : RecEntry
  max1rm : RecEntry
  history : List (String × List String)
deriving DecidableEq

def emptyExerciseRecord : ExerciseRecord :=
  { maxWeight := emptyEntry, maxReps := emptyEntry, maxVolumeSet := emptyEntry,
    maxVolumeWorkout := emptyEntry, max1rm := emptyEntry, history := [] }

structure MuscleGroupRecord where
  maxVolumeWorkout : RecEntry
  maxWeight : RecEntry
  max1rm : RecEntry
  history : List (String × List String)
deriving DecidableEq

def emptyMuscleGroupRecord : MuscleGroupRecord :=
  { maxVolumeWorkout := emptyEntry, maxWeight := emptyEntry, max1rm := emptyEntry,
    history := [] }

structure OverallRecord where
  totalVolume : RecEntry
  maxWeight : RecEntry
  maxReps : RecEntry
  maxVolumeSet : RecEntry
  max1rm : RecEntry
deriving DecidableEq

structure Registry where
  exercises : List (String × ExerciseRecord)
  muscleGroups : List (String × MuscleGroupRecord)
  overall : OverallRecord
  lastUpdated : Option String
deriving DecidableEq

/-- pandas `idxmax` over a group: the first row attaining the maximum. -/
def regArgmax (f : RegRow → ℚ) : List RegRow → Option RegRow
  | [] => none
  | x :: xs => some (xs.foldl (fun best r => if f best < f r then r else best) x)

/-- Per-date workout volumes of a group, in sorted date order. -/
def dateKeys (rows : List RegRow) : List String :=
  ((rows.map (·.rdateStr)).dedup).mergeSort strLe

def workoutVolumes (rows : List RegRow) : List (String × ℚ) :=
  (dateKeys rows).map (fun d =>
    (d, ((rows.filter (fun r => r.rdateStr == d)).map regVolume).sum))

def argmaxPair : List (String × ℚ) → Option (String × ℚ)
  | [] => none
  | x :: xs => some (xs.foldl (fun best p => if best.2 < p.2 then p else best) x)

/-- Overwrite a stored slot only when the candidate value is strictly
    greater. -/
def updEntry (stored cand : RecEntry) : RecEntry :=
  if stored.value < cand.value then cand else stored

def updEntryOpt (stored : RecEntry) (cand : Option RecEntry) : RecEntry :=
  match cand with
  | some c => updEntry stored c
  | none => stored

/-! #### Candidate records extracted from one group of rows -/

def candMaxWeight (rows : List RegRow) : Option RecEntry :=
  (regArgmax (·.rweight) rows).map (fun r =>
    { value := r.rweight, rdate := some r.rdateStr, accExercise := none,
      accWeight := none, accReps := some (pyInt r.rreps) })

def candMaxReps (rows : List RegRow) : Option RecEntry :=
  (regArgmax (·.rreps) rows).map (fun r =>
    { value := ((pyInt r.rreps : ℤ) : ℚ), rdate := some r.rdateStr, accExercise := none,
      accWeight := some r.rweight, accReps := none })

def candMaxVolumeSet (rows : List RegRow) : Option RecEntry :=
  (regArgmax regVolume rows).map (fun r =>
    { value := regVolume r, rdate := some r.rdateStr, accExercise := none,
      accWeight := some r.rweight, accReps := some (pyInt r.rreps) })

def candMaxVolumeWorkout (rows : List RegRow) : Option RecEntry :=
  (argmaxPair (workoutVolumes rows)).map (fun p =>
    { value := p.2, rdate := some p.1, accExercise := none,
      accWeight := none, accReps := none })

def candMax1rm (rows : List RegRow) : Option RecEntry :=
  (regArgmax reg1rm rows).map (fun r =>
    { value := reg1rm r, rdate := some r.rdateStr, accExercise := none,
      accWeight := some r.rweight, accReps := some (pyInt r.rreps) })

/-- Like `candMaxWeight` but carrying the exercise name (muscle-group and
    overall records store it). -/
def candMaxWeightEx (rows : List RegRow) : Option RecEntry :=
  (candMaxWeight rows).map (fun c =>
    { c with accExercise := (regArgmax (·.rweight) rows).map (·.exName) })

def candMaxRepsEx (rows : List RegRow) : Option RecEntry :=
  (candMaxReps rows).map (fun c =>
    { c with accExercise := (regArgmax (·.rreps) rows).map (·.exName) })

def candMaxVolumeSetEx (rows : List RegRow) : Option RecEntry :=
  (candMaxVolumeSet rows).map (fun c =>
    { c with accExercise := (regArgmax regVolume rows).map (·.exName) })

def candMax1rmEx (rows : List RegRow) : Option RecEntry :=
  (candMax1rm rows).map (fun c =>
    { c with accExercise := (regArgmax reg1rm rows).map (·.exName) })

/-- The `max_workout_vol > stored` comparison runs even on an empty series
    (against 0 and a `None` date), for muscle-group and overall records. -/
def updWorkoutVolAlways (stored : RecEntry) (rows : List RegRow) : RecEntry :=
  match argmaxPair (workoutVolumes rows) with
  | some p =>
    if stored.value < p.2 then
      { value := p.2, rdate := some p.1, accExercise := none, accWeight := none,
        accReps := none }
    else stored
  | none =>
    if stored.value < 0 then
      { value := 0, rdate := none, accExercise := none, accWeight := none, accReps := none }
    else stored

/-! #### History update primitives -/

def keyPresent (h : List (String × List String)) (d : String) : Bool :=
  h.any (fun p => p.1 == d)

/-- Every pair under key `d` already lists `e`. -/
def entryInAll (h : List (String × List String)) (d e : String) : Bool :=
  h.all (fun p => !(p.1 == d) || p.2.contains e)

def histEnsureKey (h : List (String × List String)) (d : String) :
    List (String × List String) :=
  if keyPresent h d then h else h ++ [(d, [])]

def histAppend (h : List (String × List String)) (d e : String) :
    List (String × List String) :=
  h.map (fun p => if p.1 == d then (p.1, if p.2.contains e then p.2 else p.2 ++ [e]) else p)

/-- Process one record-setting date: create its history slot if absent and
    append each of its (not yet present) entry strings. -/
def histFoldStep (entriesOf : String → List String) (h : List (String × List String))
    (d : String) : List (String × List String) :=
  (entriesOf d).foldl (fun h2 e => histAppend h2 d e) (histEnsureKey h d)

def histFold (entriesOf : String → List String) (dates : List String)
    (h : List (String × List String)) : List (String × List String) :=
  dates.foldl (histFoldStep entriesOf) h

/-! #### Record updates -/

/-- The exercise history loop runs over these four record kinds (the Python
    names `max_weight`, ..., `max_1rm` retitled by `.replace('_',' ').title()`). -/
def exRecTypes (rec : ExerciseRecord) : List (String × RecEntry) :=
  [("Max Weight", rec.maxWeight), ("Max Reps", rec.maxReps),
   ("Max Volume Set", rec.maxVolumeSet), ("Max 1Rm", rec.max1rm)]

def exDatesWithRecords (rec : ExerciseRecord) : List String :=
  ((exRecTypes rec).filterMap (fun p => p.2.rdate)).dedup

def exEntriesOf (rec : ExerciseRecord) (d : String) : List String :=
  (exRecTypes rec).filterMap (fun p =>
    if p.2.rdate == some d then some (p.1 ++ ": " ++ fmt1 p.2.value) else none)

def updateExHistory (rec : ExerciseRecord) : ExerciseRecord :=
  { rec with history := histFold (exEntriesOf rec) (exDatesWithRecords rec) rec.history }

/-- Embedding of `_update_exercise_records` on one exercise's group. -/
def updExRecord (rec : ExerciseRecord) (rows : List RegRow) : ExerciseRecord :=
  updateExHistory
    { rec with
      maxWeight := updEntryOpt rec.maxWeight (candMaxWeight rows),
      maxReps := updEntryOpt rec.maxReps (candMaxReps rows),
      maxVolumeSet := updEntryOpt rec.maxVolumeSet (candMaxVolumeSet rows),
      maxVolumeWorkout := updEntryOpt rec.maxVolumeWorkout (candMaxVolumeWorkout rows),
      max1rm := updEntryOpt rec.max1rm (candMax1rm rows) }

/-- Muscle-group history kinds; `max_weight` and `max_1rm` dicts carry an
    `exercise` key, so their entries append " (exercise)". -/
def mgRecTypes (rec : MuscleGroupRecord) : List (String × RecEntry × Bool) :=
  [("Max Weight", rec.maxWeight, true), ("Max Volume Workout", rec.maxVolumeWorkout, false),
   ("Max 1Rm", rec.max1rm, true)]

def mgDatesWithRecords (rec : MuscleGroupRecord) : List String :=
  ((mgRecTypes rec).filterMap (fun p => p.2.1.rdate)).dedup

def mgEntriesOf (rec : MuscleGroupRecord) (d : String) : List String :=
  (mgRecTypes rec).filterMap (fun p =>
    if p.2.1.rdate == some d then
      some (if p.2.2 then
          p.1 ++ ": " ++ fmt1 p.2.1.value ++ " (" ++ (p.2.1.accExercise.getD "None") ++ ")"
        else p.1 ++ ": " ++ fmt1 p.2.1.value)
    else none)

def updateMgHistory (rec : MuscleGroupRecord) : MuscleGroupRecord :=
  { rec with history := histFold (mgEntriesOf rec) (mgDatesWithRecords rec) rec.history }

/-- Embedding of `_update_muscle_group_records` on one muscle group's rows. -/
def updMgRecord (rec : MuscleGroupRecord) (rows : List RegRow) : MuscleGroupRecord :=
  updateMgHistory
    { rec with
      maxWeight := updEntryOpt rec.maxWeight (candMaxWeightEx rows),
      maxVolumeWorkout := updWorkoutVolAlways rec.maxVolumeWorkout rows,
      max1rm := updEntryOpt rec.max1rm (candMax1rmEx rows) }

/-- Embedding of `_update_overall_records`. -/
def updOverall (rec : OverallRecord) (rows : List RegRow) : OverallRecord :=
  { totalVolume := updWorkoutVolAlways rec.totalVolume rows,
    maxWeight := updEntryOpt rec.maxWeight (candMaxWeightEx rows),
    maxReps := updEntryOpt rec.maxReps (candMaxRepsEx rows),
    maxVolumeSet := updEntryOpt rec.maxVolumeSet (candMaxVolumeSetEx rows),
    max1rm := updEntryOpt rec.max1rm (candMax1rmEx rows) }

/-! #### The registry update -/

def assocGetOr {α : Type} (l : List (String × α)) (k : String) (d : α) : α :=
  ((l.find? (fun p => p.1 == k)).map (·.2)).getD d

def assocSet {α : Type} (l : List (String × α)) (k : String) (v : α) : List (String × α) :=
  if l.any (fun p => p.1 == k) then
    l.map (fun p => if p.1 == k then (k, v) else p)
  else l ++ [(k, v)]

/-- Process a list of group keys: read the stored record (or the empty one),
    update it from the key's rows, and write it back. -/
def updAssocFold {α : Type} (upd : String → α → α) (d0 : α) (ks : List String)
    (l : List (String × α)) : List (String × α) :=
  ks.foldl (fun acc e => assocSet acc e (upd e (assocGetOr acc e d0))) l

/-- Embedding of `RecordsRegistry.update_from_dataframe`; `now` is the
    timestamp written to `last_updated`. -/
def update_from_dataframe (reg : Registry) (rows : List RegRow) (now : String) : Registry :=
  { exercises :=
      updAssocFold (fun e v => updExRecord v (rows.filter (fun r => r.exName == e)))
        emptyExerciseRecord (((rows.map (·.exName)).dedup).mergeSort strLe) reg.exercises,
    muscleGroups :=
      updAssocFold (fun g v => updMgRecord v (rows.filter (fun r => r.mgroup == g)))
        emptyMuscleGroupRecord (((rows.map (·.mgroup)).dedup).mergeSort strLe)
        reg.muscleGroups,
    overall := updOverall reg.overall rows,
    lastUpdated := some now }

/-! #### Idempotence lemmas: stored entries -/

lemma updEntry_idem (s c : RecEntry) : updEntry (updEntry s c) c = updEntry s c := by
  by_cases h : s.value < c.value
  · simp only [updEntry, if_pos h, lt_irrefl, if_false]
  · simp only [updEntry, if_neg h]

lemma updEntryOpt_idem (s : RecEntry) (c : Option RecEntry) :
    updEntryOpt (updEntryOpt s c) c = updEntryOpt s c := by
  cases c with
  | none => rfl
  | some c => exact updEntry_idem s c

lemma updWorkoutVolAlways_idem (s : RecEntry) (rows : List RegRow) :
    updWorkoutVolAlways (updWorkoutVolAlways s rows) rows = updWorkoutVolAlways s rows := by
  simp only [updWorkoutVolAlways]
  cases hq : argmaxPair (workoutVolumes rows) with
  | some p =>
    simp only [hq]
    by_cases hv : s.value < p.2
    · simp only [if_pos hv, lt_irrefl, if_false]
    · simp only [if_neg hv]
  | none =>
    simp only [hq]
    by_cases hv : s.value < 0
    · simp only [if_pos hv]
      simp
    · simp only [if_neg hv]

/-! #### Idempotence lemmas: history -/

lemma keyPresent_ensure_self (h : List (String × List String)) (d : String) :
    keyPresent (histEnsureKey h d) d = true := by
  rw [histEnsureKey]
  by_cases hk : keyPresent h d
  · rw [if_pos hk]
    exact hk
  · rw [if_neg hk, keyPresent, List.any_append]
    simp [keyPresent]

lemma keyPresent_ensure_mono (h : List (String × List String)) (d2 d : String)
    (hk : keyPresent h d = true) : keyPresent (histEnsureKey h d2) d = true := by
  rw [histEnsureKey]
  by_cases h2 : keyPresent h d2
  · rwa [if_pos h2]
  · rw [if_neg h2, keyPresent, List.any_append]
    rw [keyPresent] at hk
    simp [hk]

lemma keyPresent_append (h : List (String × List String)) (d2 e2 d : String) :
    keyPresent (histAppend h d2 e2) d = keyPresent h d := by
  rw [keyPresent, keyPresent, histAppend, List.any_map]
  congr 1
  funext p
  by_cases hp : p.1 = d2 <;> simp [Function.comp, hp]

lemma appendFold_keyPresent (d2 d : String) :
    ∀ (es : List String) (h : List (String × List String)), keyPresent h d = true →
      keyPresent (es.foldl (fun h2 e => histAppend h2 d2 e) h) d = true := by
  intro es
  induction es with
  | nil => intro h hk; exact hk
  | cons e es ih =>
    intro h hk
    rw [List.foldl_cons]
    exact ih _ (by rw [keyPresent_append]; exact hk)

lemma entryInAll_append_keeps (h : List (String × List String)) (d2 e2 d e : String)
    (he : entryInAll h d e = true) : entryInAll (histAppend h d2 e2) d e = true := by
  rw [entryInAll, histAppend, List.all_map, List.all_eq_true]
  rw [entryInAll, List.all_eq_true] at he
  intro p hp
  have hpe := he p hp
  by_cases h1 : p.1 == d2
  · simp only [Function.comp, if_pos h1]
    by_cases h2 : p.1 == d
    · rw [h2] at hpe ⊢
      simp only [Bool.not_true, Bool.false_or] at hpe ⊢
      by_cases h3 : p.2.contains e2
      · rw [if_pos h3]
        exact hpe
      · rw [if_neg h3]
        have : e ∈ p.2 := List.elem_iff.1 hpe
        exact List.elem_iff.2 (List.mem_append_left _ this)
    · simp [h2]
  · simp only [Function.comp, if_neg h1]
    exact hpe

lemma entryInAll_append_self (h : List (String × List String)) (d e : String) :
    entryInAll (histAppend h d e) d e = true := by
  rw [entryInAll, histAppend, List.all_map, List.all_eq_true]
  intro p _
  by_cases h1 : p.1 = d
  · simp only [Function.comp, h1, beq_self_eq_true, if_true, Bool.not_true, Bool.false_or]
    by_cases h3 : e ∈ p.2
    · simp [h3]
    · simp [h3]
  · simp [Function.comp, h1]

lemma entryInAll_ensure (h : List (String × List String)) (d2 d e : String)
    (hcase : (d2 == d) = false ∨ keyPresent h d2 = true)
    (he : entryInAll h d e = true) : entryInAll (histEnsureKey h d2) d e = true := by
  rw [histEnsureKey]
  by_cases h2 : keyPresent h d2
  · rwa [if_pos h2]
  · rw [if_neg h2, entryInAll, List.all_append]
    rcases hcase with hne | hk
    · rw [entryInAll, List.all_eq_true] at he
      have h1 : h.all (fun p => !(p.1 == d) || p.2.contains e) = true :=
        List.all_eq_true.2 he
      have h2b : ([((d2 : String), ([] : List String))].all
          (fun p => !(p.1 == d) || p.2.contains e)) = true := by
        simp [hne]
      rw [h1, h2b]
      rfl
    · exact absurd hk h2

lemma appendFold_entry_keeps (d2 d e : String) :
    ∀ (es : List String) (h : List (String × List String)), entryInAll h d e = true →
      entryInAll (es.foldl (fun h2 x => histAppend h2 d2 x) h) d e = true := by
  intro es
  induction es with
  | nil => intro h he; exact he
  | cons x es ih =>
    intro h he
    rw [List.foldl_cons]
    exact ih _ (entryInAll_append_keeps h d2 x d e he)

lemma appendFold_establishes (d : String) :
    ∀ (es : List String) (h : List (String × List String)), ∀ e ∈ es,
      entryInAll (es.foldl (fun h2 x => histAppend h2 d x) h) d e = true := by
  intro es
  induction es with
  | nil => intro h e he; exact absurd he (List.not_mem_nil e)
  | cons x es ih =>
    intro h e he
    rw [List.foldl_cons]
    rcases List.mem_cons.1 he with he | he
    · subst he
      exact appendFold_entry_keeps d d e es _ (entryInAll_append_self h d e)
    · exact ih _ e he

lemma histFoldStep_key_self (f : String → List String) (h : List (String × List String))
    (d : String) : keyPresent (histFoldStep f h d) d = true :=
  appendFold_keyPresent d d (f d) _ (keyPresent_ensure_self h d)

lemma histFoldStep_entries_self (f : String → List String) (h : List (String × List String))
    (d : String) : ∀ e ∈ f d, entryInAll (histFoldStep f h d) d e = true :=
  appendFold_establishes d (f d) (histEnsureKey h d)

lemma histFoldStep_key_mono (f : String → List String) (h : List (String × List String))
    (d2 d : String) (hk : keyPresent h d = true) :
    keyPresent (histFoldStep f h d2) d = true :=
  appendFold_keyPresent d2 d (f d2) _ (keyPresent_ensure_mono h d2 d hk)

lemma histFoldStep_entry_mono (f : String → List String) (h : List (String × List String))
    (d2 d e : String) (hcase : (d2 == d) = false ∨ keyPresent h d2 = true)
    (he : entryInAll h d e = true) : entryInAll (histFoldStep f h d2) d e = true :=
  appendFold_entry_keeps d2 d e (f d2) _ (entryInAll_ensure h d2 d e hcase he)

lemma histFold_preserves_key (f : String → List String) :
    ∀ (ds : List String) (h : List (String × List String)) (d : String),
      keyPresent h d = true → keyPresent (histFold f ds h) d = true := by
  intro ds
  induction ds with
  | nil => intro h d hk; exact hk
  | cons d2 ds ih =>
    intro h d hk
    rw [histFold, List.foldl_cons]
    exact ih _ d (histFoldStep_key_mono f h d2 d hk)

lemma histFold_preserves_entry (f : String → List String) :
    ∀ (ds : List String) (h : List (String × List String)) (d e : String), d ∉ ds →
      entryInAll h d e = true → entryInAll (histFold f ds h) d e = true := by
  intro ds
  induction ds with
  | nil => intro h d e _ he; exact he
  | cons d2 ds ih =>
    intro h d e hni he
    have hne : (d2 == d) = false :=
      beq_eq_false_iff_ne.2 (fun hdd => hni (hdd ▸ List.mem_cons_self d2 ds))
    rw [histFold, List.foldl_cons]
    exact ih _ d e (fun hm => hni (List.mem_cons_of_mem _ hm))
      (histFoldStep_entry_mono f h d2 d e (Or.inl hne) he)

lemma histFold_establishes (f : String → List String) :
    ∀ (ds : List String), ds.Nodup →
      ∀ (h : List (String × List String)), ∀ d ∈ ds,
        keyPresent (histFold f ds h) d = true ∧
        ∀ e ∈ f d, entryInAll (histFold f ds h) d e = true := by
  intro ds
  induction ds with
  | nil => intro _ h d hd; exact absurd hd (List.not_mem_nil d)
  | cons d0 ds ih =>
    intro hnd h d hd
    rw [List.nodup_cons] at hnd
    rw [histFold, List.foldl_cons]
    rcases List.mem_cons.1 hd with hd0 | hds
    · subst hd0
      refine ⟨histFold_preserves_key f ds _ d (histFoldStep_key_self f h d), ?_⟩
      intro e he
      exact histFold_preserves_entry f ds _ d e hnd.1
        (histFoldStep_entries_self f h d e he)
    · exact ih hnd.2 _ d hds

lemma histAppend_id (h : List (String × List String)) (d e : String)
    (he : entryInAll h d e = true) : histAppend h d e = h := by
  rw [histAppend]
  rw [show h.map (fun p => if p.1 == d then (p.1, if p.2.contains e then p.2 else p.2 ++ [e]) else p) =
      h.map id from
    List.map_congr_left (by
      intro p hp
      by_cases h1 : p.1 = d
      · have hcont : p.2.contains e = true := by
          rw [entryInAll, List.all_eq_true] at he
          have hx := he p hp
          rw [h1] at hx
          simpa using hx
        have hb : (p.1 == d) = true := by simp [h1]
        rw [if_pos hb, if_pos hcont]
        rfl
      · have hb : ¬ ((p.1 == d) = true) := by simp [h1]
        rw [if_neg hb]
        rfl)]
  exact List.map_id h

lemma histEnsureKey_id (h : List (String × List String)) (d : String)
    (hk : keyPresent h d = true) : histEnsureKey h d = h := by
  rw [histEnsureKey, if_pos hk]

lemma appendFold_id (d : String) :
    ∀ (es : List String) (h : List (String × List String)),
      (∀ e ∈ es, entryInAll h d e = true) →
      es.foldl (fun h2 e => histAppend h2 d e) h = h := by
  intro es
  induction es with
  | nil => intro h _; rfl
  | cons e es ih =>
    intro h hall
    rw [List.foldl_cons, histAppend_id h d e (hall e (List.mem_cons_self e es))]
    exact ih h (fun x hx => hall x (List.mem_cons_of_mem _ hx))

lemma histFoldStep_id (f : String → List String) (h : List (String × List String))
    (d : String) (hk : keyPresent h d = true)
    (hall : ∀ e ∈ f d, entryInAll h d e = true) : histFoldStep f h d = h := by
  rw [histFoldStep, histEnsureKey_id h d hk]
  exact appendFold_id d (f d) h hall

lemma histFold_id (f : String → List String) :
    ∀ (ds : List String) (h : List (String × List String)),
      (∀ d ∈ ds, keyPresent h d = true ∧ ∀ e ∈ f d, entryInAll h d e = true) →
      histFold f ds h = h := by
  intro ds
  induction ds with
  | nil => intro h _; rfl
  | cons d0 ds ih =>
    intro h hP
    rw [histFold, List.foldl_cons,
      histFoldStep_id f h d0 (hP d0 (List.mem_cons_self d0 ds)).1
        (hP d0 (List.mem_cons_self d0 ds)).2]
    exact ih h (fun d hd => hP d (List.mem_cons_of_mem _ hd))

lemma histFold_idem (f : String → List String) (ds : List String)
    (h : List (String × List String)) (hnd : ds.Nodup) :
    histFold f ds (histFold f ds h) = histFold f ds h :=
  histFold_id f ds _ (histFold_establishes f ds hnd h)

/-! #### Idempotence lemmas: record updates -/

lemma updateExHistory_idem (rec : ExerciseRecord) :
    updateExHistory (updateExHistory rec) = updateExHistory rec := by
  have hnd : (exDatesWithRecords rec).Nodup := by
    rw [exDatesWithRecords]
    exact List.nodup_dedup _
  show ({ rec with history := (histFold (exEntriesOf rec) (exDatesWithRecords rec) (histFold (exEntriesOf rec) (exDatesWithRecords rec) rec.history)) } : ExerciseRecord)
      = { rec with history := (histFold (exEntriesOf rec) (exDatesWithRecords rec) rec.history) }
  rw [histFold_idem _ _ _ hnd]

lemma updateMgHistory_idem (rec : MuscleGroupRecord) :
    updateMgHistory (updateMgHistory rec) = updateMgHistory rec := by
  have hnd : (mgDatesWithRecords rec).Nodup := by
    rw [mgDatesWithRecords]
    exact List.nodup_dedup _
  show ({ rec with history := (histFold (mgEntriesOf rec) (mgDatesWithRecords rec) (histFold (mgEntriesOf rec) (mgDatesWithRecords rec) rec.history)) } : MuscleGroupRecord)
      = { rec with history := (histFold (mgEntriesOf rec) (mgDatesWithRecords rec) rec.history) }
  rw [histFold_idem _ _ _ hnd]

lemma updExRecord_idem (rec : ExerciseRecord) (rows : List RegRow) :
    updExRecord (updExRecord rec rows) rows = updExRecord rec rows := by
  have hW : updEntryOpt (updExRecord rec rows).maxWeight (candMaxWeight rows)
      = (updExRecord rec rows).maxWeight :=
    updEntryOpt_idem rec.maxWeight (candMaxWeight rows)
  have hR : updEntryOpt (updExRecord rec rows).maxReps (candMaxReps rows)
      = (updExRecord rec rows).maxReps :=
    updEntryOpt_idem rec.maxReps (candMaxReps rows)
  have hVS : updEntryOpt (updExRecord rec rows).maxVolumeSet (candMaxVolumeSet rows)
      = (updExRecord rec rows).maxVolumeSet :=
    updEntryOpt_idem rec.maxVolumeSet (candMaxVolumeSet rows)
  have hVW : updEntryOpt (updExRecord rec rows).maxVolumeWorkout (candMaxVolumeWorkout rows)
      = (updExRecord rec rows).maxVolumeWorkout :=
    updEntryOpt_idem rec.maxVolumeWorkout (candMaxVolumeWorkout rows)
  have h1 : updEntryOpt (updExRecord rec rows).max1rm (candMax1rm rows)
      = (updExRecord rec rows).max1rm :=
    updEntryOpt_idem rec.max1rm (candMax1rm rows)
  show updateExHistory
      { updExRecord rec rows with
        maxWeight := updEntryOpt (updExRecord rec rows).maxWeight (candMaxWeight rows),
        maxReps := updEntryOpt (updExRecord rec rows).maxReps (candMaxReps rows),
        maxVolumeSet := updEntryOpt (updExRecord rec rows).maxVolumeSet (candMaxVolumeSet rows),
        maxVolumeWorkout :=
          updEntryOpt (updExRecord rec rows).maxVolumeWorkout (candMaxVolumeWorkout rows),
        max1rm := updEntryOpt (updExRecord rec rows).max1rm (candMax1rm rows) }
    = updExRecord rec rows
  rw [hW, hR, hVS, hVW, h1]
  exact updateExHistory_idem
    { rec with
      maxWeight := updEntryOpt rec.maxWeight (candMaxWeight rows),
      maxReps := updEntryOpt rec.maxReps (candMaxReps rows),
      maxVolumeSet := updEntryOpt rec.maxVolumeSet (candMaxVolumeSet rows),
      maxVolumeWorkout := updEntryOpt rec.maxVolumeWorkout (candMaxVolumeWorkout rows),
      max1rm := updEntryOpt rec.max1rm (candMax1rm rows) }

lemma updMgRecord_idem (rec : MuscleGroupRecord) (rows : List RegRow) :
    updMgRecord (updMgRecord rec rows) rows = updMgRecord rec rows := by
  have hW : updEntryOpt (updMgRecord rec rows).maxWeight (candMaxWeightEx rows)
      = (updMgRecord rec rows).maxWeight :=
    updEntryOpt_idem rec.maxWeight (candMaxWeightEx rows)
  have hV : updWorkoutVolAlways (updMgRecord rec rows).maxVolumeWorkout rows
      = (updMgRecord rec rows).maxVolumeWorkout :=
    updWorkoutVolAlways_idem rec.maxVolumeWorkout rows
  have h1 : updEntryOpt (updMgRecord rec rows).max1rm (candMax1rmEx rows)
      = (updMgRecord rec rows).max1rm :=
    updEntryOpt_idem rec.max1rm (candMax1rmEx rows)
  show updateMgHistory
      { updMgRecord rec rows with
        maxWeight := updEntryOpt (updMgRecord rec rows).maxWeight (candMaxWeightEx rows),
        maxVolumeWorkout := updWorkoutVolAlways (updMgRecord rec rows).maxVolumeWorkout rows,
        max1rm := updEntryOpt (updMgRecord rec rows).max1rm (candMax1rmEx rows) }
    = updMgRecord rec rows
  rw [hW, hV, h1]
  exact updateMgHistory_idem
    { rec with
      maxWeight := updEntryOpt rec.maxWeight (candMaxWeightEx rows),
      maxVolumeWorkout := updWorkoutVolAlways rec.maxVolumeWorkout rows,
      max1rm := updEntryOpt rec.max1rm (candMax1rmEx rows) }

lemma updOverall_idem (rec : OverallRecord) (rows : List RegRow) :
    updOverall (updOverall rec rows) rows = updOverall rec rows := by
  have hT : updWorkoutVolAlways (updOverall rec rows).totalVolume rows
      = (updOverall rec rows).totalVolume :=
    updWorkoutVolAlways_idem rec.totalVolume rows
  have hW : updEntryOpt (updOverall rec rows).maxWeight (candMaxWeightEx rows)
      = (updOverall rec rows).maxWeight :=
    updEntryOpt_idem rec.maxWeight (candMaxWeightEx rows)
  have hR : updEntryOpt (updOverall rec rows).maxReps (candMaxRepsEx rows)
      = (updOverall rec rows).maxReps :=
    updEntryOpt_idem rec.maxReps (candMaxRepsEx rows)
  have hVS : updEntryOpt (updOverall rec rows).maxVolumeSet (candMaxVolumeSetEx rows)
      = (updOverall rec rows).maxVolumeSet :=
    updEntryOpt_idem rec.maxVolumeSet (candMaxVolumeSetEx rows)
  have h1 : updEntryOpt (updOverall rec rows).max1rm (candMax1rmEx rows)
      = (updOverall rec rows).max1rm :=
    updEntryOpt_idem rec.max1rm (candMax1rmEx rows)
  show OverallRecord.mk (updWorkoutVolAlways (updOverall rec rows).totalVolume rows)
      (updEntryOpt (updOverall rec rows).maxWeight (candMaxWeightEx rows))
      (updEntryOpt (updOverall rec rows).maxReps (candMaxRepsEx rows))
      (updEntryOpt (updOverall rec rows).maxVolumeSet (candMaxVolumeSetEx rows))
      (updEntryOpt (updOverall rec rows).max1rm (candMax1rmEx rows))
    = updOverall rec rows
  rw [hT, hW, hR, hVS, h1]

/-! #### Idempotence lemmas: the assoc-list write-back fold -/

/-- Key `k` is settled in the assoc list: it is present, all of its pairs carry
    one fixed value, and that value is a fixed point of the per-key update. -/
def settledAt {α : Type} (upd : String → α → α) (l : List (String × α)) (k : String) :
    Prop :=
  ∃ w, upd k w = w ∧ (l.any (fun p => p.1 == k)) = true ∧ ∀ p ∈ l, p.1 = k → p.2 = w

lemma assocGetOr_settled {α : Type} (l : List (String × α)) (k : String) (d0 w : α)
    (hk : (l.any (fun p => p.1 == k)) = true)
    (hw : ∀ p ∈ l, p.1 = k → p.2 = w) :
    assocGetOr l k d0 = w := by
  rw [assocGetOr]
  obtain ⟨p, hp, hpk⟩ := List.any_eq_true.1 hk
  cases hfind : l.find? (fun q => q.1 == k) with
  | none =>
    have hno := List.find?_eq_none.1 hfind p hp
    exact absurd hpk hno
  | some q =>
    have hq1 := List.find?_some hfind
    have hqm : q ∈ l := List.mem_of_find?_eq_some hfind
    have hqw : q.2 = w := hw q hqm (by simpa using hq1)
    simp [hqw]

lemma assocSet_settled {α : Type} (l : List (String × α)) (k : String) (w : α)
    (hk : (l.any (fun p => p.1 == k)) = true)
    (hw : ∀ p ∈ l, p.1 = k → p.2 = w) :
    assocSet l k w = l := by
  rw [assocSet, if_pos hk]
  rw [show (l.map (fun p => if p.1 == k then (k, w) else p)) = l.map id from
    List.map_congr_left (by
      intro p hp
      by_cases h1 : p.1 = k
      · have hb : (p.1 == k) = true := by simp [h1]
        rw [if_pos hb]
        have h2 : p.2 = w := hw p hp h1
        rw [← h1, ← h2]
        rfl
      · have hb : ¬ ((p.1 == k) = true) := by simp [h1]
        rw [if_neg hb]
        rfl)]
  exact List.map_id l

lemma assocSet_any_ne {α : Type} (l : List (String × α)) (k2 k : String) (v : α)
    (hne : k2 ≠ k) :
    ((assocSet l k2 v).any (fun p => p.1 == k)) = (l.any (fun p => p.1 == k)) := by
  rw [assocSet]
  by_cases h2 : l.any (fun p => p.1 == k2)
  · rw [if_pos h2, List.any_map]
    congr 1
    funext p
    by_cases h1 : p.1 = k2 <;> simp [Function.comp, h1, hne]
  · rw [if_neg h2, List.any_append]
    simp [hne]

lemma assocSet_vals_ne {α : Type} (l : List (String × α)) (k2 k : String) (v w : α)
    (hne : k2 ≠ k) (hw : ∀ p ∈ l, p.1 = k → p.2 = w) :
    ∀ p ∈ assocSet l k2 v, p.1 = k → p.2 = w := by
  intro p hp hpk
  rw [assocSet] at hp
  by_cases h2 : l.any (fun q => q.1 == k2)
  · rw [if_pos h2] at hp
    obtain ⟨q, hq, hqe⟩ := List.mem_map.1 hp
    by_cases h1 : q.1 = k2
    · rw [if_pos (by simp [h1] : (q.1 == k2) = true)] at hqe
      rw [← hqe] at hpk
      exact absurd hpk hne
    · rw [if_neg (by simp [h1])] at hqe
      subst hqe
      exact hw q hq hpk
  · rw [if_neg h2] at hp
    rcases List.mem_append.1 hp with hp | hp
    · exact hw p hp hpk
    · have h3 : p = (k2, v) := List.mem_singleton.1 hp
      rw [h3] at hpk
      exact absurd hpk hne

lemma assocSet_any_self {α : Type} (l : List (String × α)) (k : String) (v : α) :
    ((assocSet l k v).any (fun p => p.1 == k)) = true := by
  rw [assocSet]
  by_cases h2 : l.any (fun p => p.1 == k)
  · rw [if_pos h2, List.any_map, List.any_eq_true]
    obtain ⟨p, hp, hpk⟩ := List.any_eq_true.1 h2
    refine ⟨p, hp, ?_⟩
    simp [Function.comp, hpk]
  · rw [if_neg h2, List.any_append]
    simp

lemma assocSet_vals_self {α : Type} (l : List (String × α)) (k : String) (v : α) :
    ∀ p ∈ assocSet l k v, p.1 = k → p.2 = v := by
  intro p hp hpk
  rw [assocSet] at hp
  by_cases h2 : l.any (fun q => q.1 == k)
  · rw [if_pos h2] at hp
    obtain ⟨q, hq, hqe⟩ := List.mem_map.1 hp
    by_cases h1 : q.1 = k
    · rw [if_pos (by simp [h1] : (q.1 == k) = true)] at hqe
      exact congrArg Prod.snd hqe.symm
    · rw [if_neg (by simp [h1])] at hqe
      subst hqe
      exact absurd hpk h1
  · rw [if_neg h2] at hp
    rcases List.mem_append.1 hp with hp | hp
    · exact absurd (List.any_eq_true.2 ⟨p, hp, by simp [hpk]⟩) h2
    · have h3 : p = (k, v) := List.mem_singleton.1 hp
      exact congrArg Prod.snd h3

lemma assocStep_id {α : Type} (upd : String → α → α) (d0 : α) (l : List (String × α))
    (k : String) (hs : settledAt upd l k) :
    assocSet l k (upd k (assocGetOr l k d0)) = l := by
  obtain ⟨w, hidem, hk, hw⟩ := hs
  rw [assocGetOr_settled l k d0 w hk hw, hidem]
  exact assocSet_settled l k w hk hw

lemma settledAt_assocSet_ne {α : Type} (upd : String → α → α) (l : List (String × α))
    (k2 k : String) (v : α) (hne : k2 ≠ k) (hs : settledAt upd l k) :
    settledAt upd (assocSet l k2 v) k := by
  obtain ⟨w, hidem, hk, hw⟩ := hs
  exact ⟨w, hidem, by rw [assocSet_any_ne l k2 k v hne]; exact hk,
    assocSet_vals_ne l k2 k v w hne hw⟩

lemma settledAt_assocSet_self {α : Type} (upd : String → α → α) (l : List (String × α))
    (k : String) (w : α) (hidem : upd k w = w) :
    settledAt upd (assocSet l k w) k :=
  ⟨w, hidem, assocSet_any_self l k w, assocSet_vals_self l k w⟩

lemma settledAt_fold_preserve {α : Type} (upd : String → α → α) (d0 : α) (k : String) :
    ∀ (ks : List String), k ∉ ks → ∀ l : List (String × α), settledAt upd l k →
      settledAt upd (updAssocFold upd d0 ks l) k := by
  intro ks
  induction ks with
  | nil => intro _ l hs; exact hs
  | cons k2 ks ih =>
    intro hni l hs
    have hne : k2 ≠ k := fun h => hni (h ▸ List.mem_cons_self k2 ks)
    show settledAt upd
      (updAssocFold upd d0 ks (assocSet l k2 (upd k2 (assocGetOr l k2 d0)))) k
    exact ih (fun h => hni (List.mem_cons_of_mem _ h)) _
      (settledAt_assocSet_ne upd l k2 k _ hne hs)

lemma settledAt_fold_establishes {α : Type} (upd : String → α → α) (d0 : α)
    (hupd : ∀ e v, upd e (upd e v) = upd e v) :
    ∀ (ks : List String), ks.Nodup → ∀ l : List (String × α), ∀ k ∈ ks,
      settledAt upd (updAssocFold upd d0 ks l) k := by
  intro ks
  induction ks with
  | nil => intro _ l k hk; exact absurd hk (List.not_mem_nil k)
  | cons k0 ks ih =>
    intro hnd l k hk
    rw [List.nodup_cons] at hnd
    show settledAt upd
      (updAssocFold upd d0 ks (assocSet l k0 (upd k0 (assocGetOr l k0 d0)))) k
    rcases List.mem_cons.1 hk with hk0 | hks
    · subst hk0
      exact settledAt_fold_preserve upd d0 k ks hnd.1 _
        (settledAt_assocSet_self upd l k _ (hupd k _))
    · exact ih hnd.2 _ k hks

lemma updAssocFold_id {α : Type} (upd : String → α → α) (d0 : α) :
    ∀ (ks : List String) (l : List (String × α)),
      (∀ k ∈ ks, settledAt upd l k) → updAssocFold upd d0 ks l = l := by
  intro ks
  induction ks with
  | nil => intro l _; rfl
  | cons k0 ks ih =>
    intro l hall
    show updAssocFold upd d0 ks (assocSet l k0 (upd k0 (assocGetOr l k0 d0))) = l
    rw [assocStep_id upd d0 l k0 (hall k0 (List.mem_cons_self k0 ks))]
    exact ih l (fun k hk => hall k (List.mem_cons_of_mem _ hk))

lemma updAssocFold_idem {α : Type} (upd : String → α → α) (d0 : α)
    (hupd : ∀ e v, upd e (upd e v) = upd e v) (ks : List String) (hnd : ks.Nodup)
    (l : List (String × α)) :
    updAssocFold upd d0 ks (updAssocFold upd d0 ks l) = updAssocFold upd d0 ks l :=
  updAssocFold_id upd d0 ks _
    (fun k hk => settledAt_fold_establishes upd d0 hupd ks hnd l k hk)

/-- **C9** (confirmed): the records-registry update is idempotent per dataset.
Every stored slot is overwritten only when the new candidate value is strictly
greater than the stored maximum, and a history entry is appended only if not
already present; consequently running `update_from_dataframe` a second time on
the same rows leaves every exercise record, muscle-group record and overall
record — all stored maxima, dates, accessory fields and history entries —
exactly as the first run left them. -/
theorem C9_registry_update_idempotent (reg : Registry) (rows : List RegRow)
    (t1 t2 : String) :
    (update_from_dataframe (update_from_dataframe reg rows t1) rows t2).exercises
      = (update_from_dataframe reg rows t1).exercises ∧
    (update_from_dataframe (update_from_dataframe reg rows t1) rows t2).muscleGroups
      = (update_from_dataframe reg rows t1).muscleGroups ∧
    (update_from_dataframe (update_from_dataframe reg rows t1) rows t2).overall
      = (update_from_dataframe reg rows t1).overall := by
  refine ⟨?_, ?_, ?_⟩
  · show updAssocFold (fun e v => updExRecord v (rows.filter (fun r => r.exName == e)))
        emptyExerciseRecord (((rows.map (fun r => r.exName)).dedup).mergeSort strLe)
        (updAssocFold (fun e v => updExRecord v (rows.filter (fun r => r.exName == e)))
          emptyExerciseRecord (((rows.map (fun r => r.exName)).dedup).mergeSort strLe)
          reg.exercises)
      = updAssocFold (fun e v => updExRecord v (rows.filter (fun r => r.exName == e)))
        emptyExerciseRecord (((rows.map (fun r => r.exName)).dedup).mergeSort strLe)
        reg.exercises
    exact updAssocFold_idem _ _ (fun e v => updExRecord_idem v _) _
      ((List.mergeSort_perm _ strLe).nodup_iff.2 (List.nodup_dedup _)) reg.exercises
  · show updAssocFold (fun g v => updMgRecord v (rows.filter (fun r => r.mgroup == g)))
        emptyMuscleGroupRecord (((rows.map (fun r => r.mgroup)).dedup).mergeSort strLe)
        (updAssocFold (fun g v => updMgRecord v (rows.filter (fun r => r.mgroup == g)))
          emptyMuscleGroupRecord (((rows.map (fun r => r.mgroup)).dedup).mergeSort strLe)
          reg.muscleGroups)
      = updAssocFold (fun g v => updMgRecord v (rows.filter (fun r => r.mgroup == g)))
        emptyMuscleGroupRecord (((rows.map (fun r => r.mgroup)).dedup).mergeSort strLe)
        reg.muscleGroups
    exact updAssocFold_idem _ _ (fun g v => updMgRecord_idem v _) _
      ((List.mergeSort_perm _ strLe).nodup_iff.2 (List.nodup_dedup _)) reg.muscleGroups
  · exact updOverall_idem reg.overall rows
